import Mathlib

/-!
Shallow embedding of the MAVLink wire-framing core (src/include/protocol.h):
message finalization, the stream buffer serializer, the byte-at-a-time
channel parser state machine, and the big-endian field packing primitives.

The repository ships only protocol.h; the headers checksum.h and
mavlink_types.h it includes are not present.  Definitions taken from those
missing headers are marked `Modelled from the spec:` in their doc comments
and follow the specification's wording; everything else is translated
directly from protocol.h.
-/

/-- Modelled from the spec: mavlink_types.h is absent.  The fixed
start-of-frame delimiter byte (spec glossary: "the fixed start-of-frame
marker byte"); its concrete value is the historical 0x55. -/
def MAVLINK_STX : Nat := 85

/-- Modelled from the spec: mavlink_types.h is absent.  Number of core
header bytes (length, sequence, system id, component id, message kind id)
per the wire format of spec section 6. -/
def MAVLINK_CORE_HEADER_LEN : Nat := 5

/-- Modelled from the spec: mavlink_types.h is absent.  Overhead bytes of a
frame: delimiter + 5 header bytes + 2 checksum bytes = 8 (spec section 4.5). -/
def MAVLINK_NUM_NON_PAYLOAD_BYTES : Nat := 8

/-- Modelled from the spec: mavlink_types.h is absent.  Frame overhead not
counting the start delimiter. -/
def MAVLINK_NUM_NON_STX_PAYLOAD_BYTES : Nat := 7

/-- Parse state enumerator values, in the processing order given by spec
section 4.4.  Modelled from the spec: mavlink_types.h is absent; the C
enum is stored as an integer, embedded here as Nat codes 0..9. -/
def MAVLINK_PARSE_STATE_UNINIT : Nat := 0

def MAVLINK_PARSE_STATE_IDLE : Nat := 1

def MAVLINK_PARSE_STATE_GOT_STX : Nat := 2

def MAVLINK_PARSE_STATE_GOT_LENGTH : Nat := 3

def MAVLINK_PARSE_STATE_GOT_SEQ : Nat := 4

def MAVLINK_PARSE_STATE_GOT_SYSID : Nat := 5

def MAVLINK_PARSE_STATE_GOT_COMPID : Nat := 6

def MAVLINK_PARSE_STATE_GOT_MSGID : Nat := 7

def MAVLINK_PARSE_STATE_GOT_PAYLOAD : Nat := 8

def MAVLINK_PARSE_STATE_GOT_CRC1 : Nat := 9

/-- Modelled from the spec: checksum.h is absent.  One accumulation step of
the 16-bit table-free CRC (spec section 4.1: seeded accumulator updated one
byte at a time via an XOR/shift recurrence) — the X.25 CRC step used by
this protocol family.  All machine-integer wrapping is explicit: bytes are
masked with `&&& 255` and the accumulator with `&&& 65535` (uint16_t). -/
def crcAccumulateFn (acc b : Nat) : Nat :=
  let tmp := (b ^^^ (acc &&& 255)) &&& 255
  let tmp2 := (tmp ^^^ ((tmp <<< 4) &&& 255)) &&& 255
  ((acc >>> 8) ^^^ ((tmp2 <<< 8) &&& 65535) ^^^ ((tmp2 <<< 3) &&& 65535) ^^^ (tmp2 >>> 4)) &&& 65535

/-- Modelled from the spec: checksum.h is absent.  The fixed non-zero CRC
seed (spec section 4.1: "seeded to a fixed non-zero initial value"). -/
def crcInitValue : Nat := 65535

/-- Modelled from the spec: checksum.h is absent.  `crc_calculate` over a
byte sequence: fold the accumulation step from the seed (spec section 4.1:
pure function of the byte sequence fed to it). -/
def crc_calculate (bytes : List Nat) : Nat := bytes.foldl crcAccumulateFn crcInitValue

/-- Modelled from the spec: mavlink_types.h is absent.  `mavlink_message_t`
per the data model of spec section 3: byte-valued header fields, a
fixed-capacity payload buffer (embedded as a total function from index to
byte; only indices below `len` are meaningful), and the two stored checksum
bytes.  Field order matches the wire format of spec section 6, so the
checksummed struct prefix is [len, seq, sysid, compid, msgid, payload...]. -/
structure mavlink_message_t where
  len : Nat
  seq : Nat
  sysid : Nat
  compid : Nat
  msgid : Nat
  payload : Nat → Nat
  ck_a : Nat
  ck_b : Nat

/-- Modelled from the spec: mavlink_types.h is absent.  `mavlink_status_t`:
the per-channel decode status of spec section 3 (state, payload cursor,
loss counters, error counters, last accepted sequence).  `current_seq` is a
byte-sized wrapping counter. -/
structure mavlink_status_t where
  ck_a : Nat
  ck_b : Nat
  msg_received : Nat
  buffer_overrun : Nat
  parse_error : Nat
  parse_state : Nat
  packet_idx : Nat
  current_seq : Nat
  packet_rx_drop_count : Nat
  packet_rx_success_count : Nat
deriving DecidableEq

/-- The header-plus-payload bytes of a message: the `msg->len +
MAVLINK_CORE_HEADER_LEN` leading struct bytes that `finalize_message`
checksums and `message_to_send_buffer` copies (protocol.h lines 30, 43). -/
def coreHeaderPayloadBytes (msg : mavlink_message_t) : List Nat :=
  [msg.len, msg.seq, msg.sysid, msg.compid, msg.msgid] ++ (List.range msg.len).map msg.payload

/-- `mavlink_start_checksum` (protocol.h lines 64-70): seed the running
checksum held in the message's ck_a/ck_b bytes.  The `union checksum_`
mapping on the little-endian host is c[0] = low byte, c[1] = high byte
(spec section 4.1: "byte-order-stable two-byte output (low, high)"). -/
def mavlink_start_checksum (msg : mavlink_message_t) : mavlink_message_t :=
  { msg with ck_a := crcInitValue % 256, ck_b := crcInitValue / 256 }

/-- `mavlink_update_checksum` (protocol.h lines 72-80): recombine the two
stored bytes into the 16-bit accumulator, step it with byte `c`, and store
it back split into low/high bytes. -/
def mavlink_update_checksum (msg : mavlink_message_t) (c : Nat) : mavlink_message_t :=
  let ck := crcAccumulateFn (msg.ck_a + 256 * msg.ck_b) c
  { msg with ck_a := ck % 256, ck_b := ck / 256 }

/-- `finalize_message` (protocol.h lines 19-35).  The C `static uint8_t
seq` counter is passed in explicitly as `seqCounter` and returned
incremented modulo 256.  Sets length (narrowed to a byte, as the uint16
parameter is stored into the uint8 `len` field), sender ids and sequence,
then computes the checksum over the leading `length + 5` struct bytes and
stores it as (low, high).  Returns (message, transmit length, new counter). -/
def finalize_message (msg : mavlink_message_t) (system_id component_id : Nat)
    (length : Nat) (seqCounter : Nat) : mavlink_message_t × Nat × Nat :=
  let msg := { msg with len := length % 256, sysid := system_id, compid := component_id,
                        seq := seqCounter % 256 }
  let checksum := crc_calculate (coreHeaderPayloadBytes msg)
  let msg := { msg with ck_a := checksum % 256, ck_b := checksum / 256 }
  (msg, length + MAVLINK_NUM_NON_STX_PAYLOAD_BYTES, (seqCounter + 1) % 256)

/-- `message_to_send_buffer` (protocol.h lines 40-48): start delimiter,
then the `msg->len + MAVLINK_CORE_HEADER_LEN` leading struct bytes (header
plus payload), then the two stored checksum bytes. -/
def message_to_send_buffer (msg : mavlink_message_t) : List Nat :=
  MAVLINK_STX :: (coreHeaderPayloadBytes msg ++ [msg.ck_a, msg.ck_b])

/-- `message_get_send_buffer_length` (protocol.h lines 53-56). -/
def message_get_send_buffer_length (msg : mavlink_message_t) : Nat :=
  msg.len + MAVLINK_NUM_NON_PAYLOAD_BYTES

/-- The state-initialisation function of protocol.h lines 90-104 (lazy
channel initialisation): reset the status fields only when the stored
parse state is at most UNINIT or beyond GOT_CRC1.  Note `current_seq` is
not among the reset fields, exactly as in the C code. -/
def mavlink_parse_state_init (initStatus : mavlink_status_t) : mavlink_status_t :=
  if initStatus.parse_state ≤ MAVLINK_PARSE_STATE_UNINIT ∨
     initStatus.parse_state > MAVLINK_PARSE_STATE_GOT_CRC1 then
    { initStatus with ck_a := 0, ck_b := 0, msg_received := 0, buffer_overrun := 0,
                      parse_error := 0, parse_state := MAVLINK_PARSE_STATE_UNINIT,
                      packet_idx := 0, packet_rx_drop_count := 0,
                      packet_rx_success_count := 0 }
  else initStatus

/-- The sequence catch-up loop of protocol.h lines 264-268:
`while (current_seq != seq) { drops++; current_seq++; }` where
`current_seq` is a byte-sized counter that wraps modulo 256.  Since a
wrapping byte counter reaches any byte target in at most 255 steps, the
loop is embedded with fuel 256 (enough whenever both values are bytes).
Returns (final counter value, number of iterations = drops added). -/
def seqCatchUp : Nat → Nat → Nat → Nat × Nat
  | 0, cur, _ => (cur, 0)
  | fuel + 1, cur, target =>
    if cur = target then (cur, 0)
    else
      ((seqCatchUp fuel ((cur + 1) % 256) target).1,
       (seqCatchUp fuel ((cur + 1) % 256) target).2 + 1)

/-- Result of one `mavlink_parse_char` call: the return value, the updated
per-channel status and in-progress message (the statics
`m_mavlink_status[chan]` / `m_mavlink_message[chan]`), and the updated
caller-supplied `r_message` / `r_mavlink_status` buffers. -/
structure ParseOut where
  ret : Nat
  status : mavlink_status_t
  rxmsg : mavlink_message_t
  r_message : mavlink_message_t
  r_status : mavlink_status_t

/-- `mavlink_parse_char` (protocol.h lines 142-280) for one channel.  The
per-channel statics are passed in and returned explicitly (`st0` =
`m_mavlink_status[chan]`, `rx0` = `m_mavlink_message[chan]`).  Faithful to
the C control flow: lazy state initialisation, then `msg_received := 0`
(line 158), then the switch on the parse state, then the sequence-gap
accounting performed only when a message was received in this call, then
the unconditional copy of three fields into the caller's status. -/
def mavlink_parse_char (c : Nat) (st0 : mavlink_status_t) (rx0 : mavlink_message_t)
    (rm0 : mavlink_message_t) (rs0 : mavlink_status_t) : ParseOut :=
  let st1 := mavlink_parse_state_init st0
  let st2 := { st1 with msg_received := 0 }
  let mid : mavlink_status_t × mavlink_message_t × mavlink_message_t :=
    if st2.parse_state = MAVLINK_PARSE_STATE_UNINIT ∨
       st2.parse_state = MAVLINK_PARSE_STATE_IDLE then
      if c = MAVLINK_STX then
        ({ st2 with parse_state := MAVLINK_PARSE_STATE_GOT_STX },
         mavlink_start_checksum rx0, rm0)
      else (st2, rx0, rm0)
    else if st2.parse_state = MAVLINK_PARSE_STATE_GOT_STX then
      if st2.msg_received ≠ 0 then
        ({ st2 with buffer_overrun := st2.buffer_overrun + 1,
                    parse_error := st2.parse_error + 1, msg_received := 0,
                    parse_state := MAVLINK_PARSE_STATE_IDLE }, rx0, rm0)
      else
        ({ st2 with packet_idx := 0, parse_state := MAVLINK_PARSE_STATE_GOT_LENGTH },
         mavlink_update_checksum { rx0 with len := c } c, rm0)
    else if st2.parse_state = MAVLINK_PARSE_STATE_GOT_LENGTH then
      ({ st2 with parse_state := MAVLINK_PARSE_STATE_GOT_SEQ },
       mavlink_update_checksum { rx0 with seq := c } c, rm0)
    else if st2.parse_state = MAVLINK_PARSE_STATE_GOT_SEQ then
      ({ st2 with parse_state := MAVLINK_PARSE_STATE_GOT_SYSID },
       mavlink_update_checksum { rx0 with sysid := c } c, rm0)
    else if st2.parse_state = MAVLINK_PARSE_STATE_GOT_SYSID then
      ({ st2 with parse_state := MAVLINK_PARSE_STATE_GOT_COMPID },
       mavlink_update_checksum { rx0 with compid := c } c, rm0)
    else if st2.parse_state = MAVLINK_PARSE_STATE_GOT_COMPID then
      let rx := mavlink_update_checksum { rx0 with msgid := c } c
      ({ st2 with parse_state :=
            if rx.len = 0 then MAVLINK_PARSE_STATE_GOT_PAYLOAD
            else MAVLINK_PARSE_STATE_GOT_MSGID }, rx, rm0)
    else if st2.parse_state = MAVLINK_PARSE_STATE_GOT_MSGID then
      let rx := mavlink_update_checksum
        { rx0 with payload := Function.update rx0.payload st2.packet_idx c } c
      let idx := (st2.packet_idx + 1) % 256
      ({ st2 with packet_idx := idx, parse_state :=
            if idx = rx.len then MAVLINK_PARSE_STATE_GOT_PAYLOAD
            else MAVLINK_PARSE_STATE_GOT_MSGID }, rx, rm0)
    else if st2.parse_state = MAVLINK_PARSE_STATE_GOT_PAYLOAD then
      if c ≠ rx0.ck_a then
        ({ st2 with parse_error := st2.parse_error + 1, msg_received := 0,
                    parse_state := MAVLINK_PARSE_STATE_IDLE }, rx0, rm0)
      else ({ st2 with parse_state := MAVLINK_PARSE_STATE_GOT_CRC1 }, rx0, rm0)
    else if st2.parse_state = MAVLINK_PARSE_STATE_GOT_CRC1 then
      if c ≠ rx0.ck_b then
        ({ st2 with parse_error := st2.parse_error + 1, msg_received := 0,
                    parse_state := MAVLINK_PARSE_STATE_IDLE }, rx0, rm0)
      else
        ({ st2 with msg_received := 1, parse_state := MAVLINK_PARSE_STATE_IDLE },
         rx0, rx0)
    else (st2, rx0, rm0)
  let st3 := mid.1
  let rx3 := mid.2.1
  let rm3 := mid.2.2
  let st4 :=
    if st3.msg_received = 1 then
      let cu := seqCatchUp 256 st3.current_seq rx3.seq
      let sa := { st3 with packet_rx_drop_count := st3.packet_rx_drop_count + cu.2,
                           current_seq := cu.1 }
      let sb := { sa with current_seq := rx3.seq }
      let sc := if sb.packet_rx_success_count = 0 then
                  { sb with packet_rx_drop_count := 0 }
                else sb
      { sc with packet_rx_success_count := sc.packet_rx_success_count + 1 }
    else st3
  let rs := { rs0 with current_seq := (st4.current_seq + 1) % 256,
                       packet_rx_success_count := st4.packet_rx_success_count,
                       packet_rx_drop_count := st4.packet_rx_drop_count }
  ⟨st4.msg_received, st4, rx3, rm3, rs⟩

/-- Cumulative result of feeding a byte list one byte at a time into
`mavlink_parse_char` for one channel, as in the usage loop documented at
protocol.h lines 121-140: `count` is the number of calls that returned 1
(decoded messages), the remaining fields are the final buffers. -/
structure FeedOut where
  count : Nat
  status : mavlink_status_t
  rxmsg : mavlink_message_t
  r_message : mavlink_message_t
  r_status : mavlink_status_t

/-- Feed the bytes left to right into the parser. -/
def feedBytes : List Nat → mavlink_status_t → mavlink_message_t → mavlink_message_t →
    mavlink_status_t → FeedOut
  | [], st, rx, rm, rs => ⟨0, st, rx, rm, rs⟩
  | c :: cs, st, rx, rm, rs =>
    let r := mavlink_parse_char c st rx rm rs
    let f := feedBytes cs r.status r.rxmsg r.r_message r.r_status
    ⟨r.ret + f.count, f.status, f.rxmsg, f.r_message, f.r_status⟩

/-- The parse state after each byte while feeding a byte list (used to talk
about which states the machine passes through). -/
def feedStates : List Nat → mavlink_status_t → mavlink_message_t → mavlink_message_t →
    mavlink_status_t → List Nat
  | [], _, _, _, _ => []
  | c :: cs, st, rx, rm, rs =>
    let r := mavlink_parse_char c st rx rm rs
    r.status.parse_state :: feedStates cs r.status r.rxmsg r.r_message r.r_status

/-- A fresh (zero-initialised, as C static storage) channel status. -/
def freshStatus : mavlink_status_t := ⟨0, 0, 0, 0, 0, 0, 0, 0, 0, 0⟩

/-- A fresh (zero-initialised) message buffer. -/
def freshMessage : mavlink_message_t := ⟨0, 0, 0, 0, 0, fun _ => 0, 0, 0⟩

/-- A frame with the given header fields, payload and explicit trailer
bytes: [delimiter, length, sequence, sysid, compid, msgid, payload bytes,
trailer low, trailer high] (wire format, spec section 6). -/
def frameWith (len seq sys comp mid : Nat) (p : Nat → Nat) (t1 t2 : Nat) : List Nat :=
  MAVLINK_STX :: ([len, seq, sys, comp, mid] ++ (List.range len).map p ++ [t1, t2])

/-- The checksum of a frame's checksummed region (header fields after the
delimiter, plus payload). -/
def frameCk (len seq sys comp mid : Nat) (p : Nat → Nat) : Nat :=
  crc_calculate ([len, seq, sys, comp, mid] ++ (List.range len).map p)

/-- A well-formed frame: trailer bytes are the (low, high) checksum bytes. -/
def goodFrame (len seq sys comp mid : Nat) (p : Nat → Nat) : List Nat :=
  frameWith len seq sys comp mid p
    (frameCk len seq sys comp mid p % 256) (frameCk len seq sys comp mid p / 256)

/-- The recombined 16-bit running checksum held in a message's two stored
checksum bytes (inverse of the little-endian union split). -/
def ckNat (msg : mavlink_message_t) : Nat := msg.ck_a + 256 * msg.ck_b

/-- Fold the CRC accumulation step over a byte list from a given value. -/
def ckList (v : Nat) (bs : List Nat) : Nat := bs.foldl crcAccumulateFn v

/-- Write a list of bytes into a buffer at consecutive indices starting at
`i` (the effect of the parser's repeated `payload[packet_idx++] = c`). -/
def writeRange : (Nat → Nat) → Nat → List Nat → (Nat → Nat)
  | f, _, [] => f
  | f, i, b :: bs => writeRange (Function.update f i b) (i + 1) bs

/-- The unconditional copy into the caller's status at the end of each
`mavlink_parse_char` call (protocol.h lines 276-278). -/
def rsCopy (rs0 st : mavlink_status_t) : mavlink_status_t :=
  { rs0 with current_seq := (st.current_seq + 1) % 256,
             packet_rx_success_count := st.packet_rx_success_count,
             packet_rx_drop_count := st.packet_rx_drop_count }

/-- Add one decoded message to a feed result (used to peel an accepting
prefix off a byte stream). -/
def bumpCount (f : FeedOut) : FeedOut := ⟨f.count + 1, f.status, f.rxmsg, f.r_message, f.r_status⟩

theorem init_noop (st : mavlink_status_t) (h1 : 1 ≤ st.parse_state)
    (h2 : st.parse_state ≤ 9) : mavlink_parse_state_init st = st := by
  simp only [mavlink_parse_state_init, MAVLINK_PARSE_STATE_UNINIT,
    MAVLINK_PARSE_STATE_GOT_CRC1]
  rw [if_neg (by omega)]

theorem seqCatchUp_eq : ∀ (fuel cur target : Nat), cur < 256 → target < 256 →
    (target + 256 - cur) % 256 < fuel →
    seqCatchUp fuel cur target = (target, (target + 256 - cur) % 256) := by
  intro fuel
  induction fuel with
  | zero => intro cur target _ _ h3; omega
  | succ n ih =>
    intro cur target h1 h2 h3
    rw [seqCatchUp]
    by_cases hct : cur = target
    · rw [if_pos hct]
      exact Prod.ext hct (by omega)
    · rw [if_neg hct]
      rw [ih ((cur + 1) % 256) target (by omega) h2 (by omega)]
      refine Prod.ext rfl ?_
      show (target + 256 - (cur + 1) % 256) % 256 + 1 = (target + 256 - cur) % 256
      omega

/-- Status fields after a successful acceptance in this call: message
marked received, state back to IDLE, sequence-gap accounting applied
(protocol.h lines 252-274). -/
def acceptStatus (st : mavlink_status_t) (seq : Nat) : mavlink_status_t :=
  { st with msg_received := 1, parse_state := MAVLINK_PARSE_STATE_IDLE,
            current_seq := seq,
            packet_rx_drop_count :=
              if st.packet_rx_success_count = 0 then 0
              else st.packet_rx_drop_count + (seq + 256 - st.current_seq) % 256,
            packet_rx_success_count := st.packet_rx_success_count + 1 }

theorem step_wait (c : Nat) (st : mavlink_status_t) (rx rm : mavlink_message_t)
    (rs : mavlink_status_t)
    (h : st.parse_state = MAVLINK_PARSE_STATE_UNINIT ∨
         st.parse_state = MAVLINK_PARSE_STATE_IDLE)
    (hstable : mavlink_parse_state_init st = st) (hc : c ≠ MAVLINK_STX) :
    mavlink_parse_char c st rx rm rs = ⟨0, { st with msg_received := 0 }, rx, rm, rsCopy rs st⟩ := by
  unfold mavlink_parse_char
  rw [hstable]
  rcases h with h | h <;>
    simp [h, hc, MAVLINK_PARSE_STATE_UNINIT, MAVLINK_PARSE_STATE_IDLE, rsCopy]

theorem step_stx (c : Nat) (st : mavlink_status_t) (rx rm : mavlink_message_t)
    (rs : mavlink_status_t)
    (h : st.parse_state = MAVLINK_PARSE_STATE_UNINIT ∨
         st.parse_state = MAVLINK_PARSE_STATE_IDLE)
    (hstable : mavlink_parse_state_init st = st) (hc : c = MAVLINK_STX) :
    mavlink_parse_char c st rx rm rs =
      ⟨0, { st with msg_received := 0, parse_state := MAVLINK_PARSE_STATE_GOT_STX },
       mavlink_start_checksum rx, rm, rsCopy rs st⟩ := by
  unfold mavlink_parse_char
  rw [hstable]
  rcases h with h | h <;>
    simp [h, hc, MAVLINK_PARSE_STATE_UNINIT, MAVLINK_PARSE_STATE_IDLE,
      MAVLINK_PARSE_STATE_GOT_STX, rsCopy]

theorem step_length (c : Nat) (st : mavlink_status_t) (rx rm : mavlink_message_t)
    (rs : mavlink_status_t) (h : st.parse_state = MAVLINK_PARSE_STATE_GOT_STX) :
    mavlink_parse_char c st rx rm rs =
      ⟨0, { st with
              msg_received := 0, packet_idx := 0,
              parse_state := MAVLINK_PARSE_STATE_GOT_LENGTH },
       mavlink_update_checksum { rx with len := c } c, rm, rsCopy rs st⟩ := by
  unfold mavlink_parse_char
  rw [init_noop st (by rw [h]; decide) (by rw [h]; decide)]
  simp [h, MAVLINK_PARSE_STATE_UNINIT, MAVLINK_PARSE_STATE_IDLE,
    MAVLINK_PARSE_STATE_GOT_STX, MAVLINK_PARSE_STATE_GOT_LENGTH, rsCopy]

theorem step_seq (c : Nat) (st : mavlink_status_t) (rx rm : mavlink_message_t)
    (rs : mavlink_status_t) (h : st.parse_state = MAVLINK_PARSE_STATE_GOT_LENGTH) :
    mavlink_parse_char c st rx rm rs =
      ⟨0, { st with msg_received := 0, parse_state := MAVLINK_PARSE_STATE_GOT_SEQ },
       mavlink_update_checksum { rx with seq := c } c, rm, rsCopy rs st⟩ := by
  unfold mavlink_parse_char
  rw [init_noop st (by rw [h]; decide) (by rw [h]; decide)]
  simp [h, MAVLINK_PARSE_STATE_UNINIT, MAVLINK_PARSE_STATE_IDLE,
    MAVLINK_PARSE_STATE_GOT_STX, MAVLINK_PARSE_STATE_GOT_LENGTH,
    MAVLINK_PARSE_STATE_GOT_SEQ, rsCopy]

theorem step_sysid (c : Nat) (st : mavlink_status_t) (rx rm : mavlink_message_t)
    (rs : mavlink_status_t) (h : st.parse_state = MAVLINK_PARSE_STATE_GOT_SEQ) :
    mavlink_parse_char c st rx rm rs =
      ⟨0, { st with msg_received := 0, parse_state := MAVLINK_PARSE_STATE_GOT_SYSID },
       mavlink_update_checksum { rx with sysid := c } c, rm, rsCopy rs st⟩ := by
  unfold mavlink_parse_char
  rw [init_noop st (by rw [h]; decide) (by rw [h]; decide)]
  simp [h, MAVLINK_PARSE_STATE_UNINIT, MAVLINK_PARSE_STATE_IDLE,
    MAVLINK_PARSE_STATE_GOT_STX, MAVLINK_PARSE_STATE_GOT_LENGTH,
    MAVLINK_PARSE_STATE_GOT_SEQ, MAVLINK_PARSE_STATE_GOT_SYSID, rsCopy]

theorem step_compid (c : Nat) (st : mavlink_status_t) (rx rm : mavlink_message_t)
    (rs : mavlink_status_t) (h : st.parse_state = MAVLINK_PARSE_STATE_GOT_SYSID) :
    mavlink_parse_char c st rx rm rs =
      ⟨0, { st with msg_received := 0, parse_state := MAVLINK_PARSE_STATE_GOT_COMPID },
       mavlink_update_checksum { rx with compid := c } c, rm, rsCopy rs st⟩ := by
  unfold mavlink_parse_char
  rw [init_noop st (by rw [h]; decide) (by rw [h]; decide)]
  simp [h, MAVLINK_PARSE_STATE_UNINIT, MAVLINK_PARSE_STATE_IDLE,
    MAVLINK_PARSE_STATE_GOT_STX, MAVLINK_PARSE_STATE_GOT_LENGTH,
    MAVLINK_PARSE_STATE_GOT_SEQ, MAVLINK_PARSE_STATE_GOT_SYSID,
    MAVLINK_PARSE_STATE_GOT_COMPID, rsCopy]

theorem step_msgid (c : Nat) (st : mavlink_status_t) (rx rm : mavlink_message_t)
    (rs : mavlink_status_t) (h : st.parse_state = MAVLINK_PARSE_STATE_GOT_COMPID) :
    mavlink_parse_char c st rx rm rs =
      ⟨0, { st with
              msg_received := 0,
              parse_state := if rx.len = 0 then MAVLINK_PARSE_STATE_GOT_PAYLOAD
                             else MAVLINK_PARSE_STATE_GOT_MSGID },
       mavlink_update_checksum { rx with msgid := c } c, rm, rsCopy rs st⟩ := by
  unfold mavlink_parse_char
  rw [init_noop st (by rw [h]; decide) (by rw [h]; decide)]
  simp [h, MAVLINK_PARSE_STATE_UNINIT, MAVLINK_PARSE_STATE_IDLE,
    MAVLINK_PARSE_STATE_GOT_STX, MAVLINK_PARSE_STATE_GOT_LENGTH,
    MAVLINK_PARSE_STATE_GOT_SEQ, MAVLINK_PARSE_STATE_GOT_SYSID,
    MAVLINK_PARSE_STATE_GOT_COMPID, mavlink_update_checksum, rsCopy]

theorem step_payload_byte (c : Nat) (st : mavlink_status_t) (rx rm : mavlink_message_t)
    (rs : mavlink_status_t) (h : st.parse_state = MAVLINK_PARSE_STATE_GOT_MSGID) :
    mavlink_parse_char c st rx rm rs =
      ⟨0, { st with
              msg_received := 0, packet_idx := (st.packet_idx + 1) % 256,
              parse_state := if (st.packet_idx + 1) % 256 = rx.len
                             then MAVLINK_PARSE_STATE_GOT_PAYLOAD
                             else MAVLINK_PARSE_STATE_GOT_MSGID },
       mavlink_update_checksum
         { rx with payload := Function.update rx.payload st.packet_idx c } c,
       rm, rsCopy rs st⟩ := by
  unfold mavlink_parse_char
  rw [init_noop st (by rw [h]; decide) (by rw [h]; decide)]
  simp [h, MAVLINK_PARSE_STATE_UNINIT, MAVLINK_PARSE_STATE_IDLE,
    MAVLINK_PARSE_STATE_GOT_STX, MAVLINK_PARSE_STATE_GOT_LENGTH,
    MAVLINK_PARSE_STATE_GOT_SEQ, MAVLINK_PARSE_STATE_GOT_SYSID,
    MAVLINK_PARSE_STATE_GOT_COMPID, MAVLINK_PARSE_STATE_GOT_MSGID,
    mavlink_update_checksum, rsCopy]

theorem step_ck1_bad (c : Nat) (st : mavlink_status_t) (rx rm : mavlink_message_t)
    (rs : mavlink_status_t) (h : st.parse_state = MAVLINK_PARSE_STATE_GOT_PAYLOAD)
    (hc : c ≠ rx.ck_a) :
    mavlink_parse_char c st rx rm rs =
      ⟨0, { st with
              msg_received := 0, parse_error := st.parse_error + 1,
              parse_state := MAVLINK_PARSE_STATE_IDLE }, rx, rm, rsCopy rs st⟩ := by
  unfold mavlink_parse_char
  rw [init_noop st (by rw [h]; decide) (by rw [h]; decide)]
  simp [h, hc, MAVLINK_PARSE_STATE_UNINIT, MAVLINK_PARSE_STATE_IDLE,
    MAVLINK_PARSE_STATE_GOT_STX, MAVLINK_PARSE_STATE_GOT_LENGTH,
    MAVLINK_PARSE_STATE_GOT_SEQ, MAVLINK_PARSE_STATE_GOT_SYSID,
    MAVLINK_PARSE_STATE_GOT_COMPID, MAVLINK_PARSE_STATE_GOT_MSGID,
    MAVLINK_PARSE_STATE_GOT_PAYLOAD, rsCopy]

theorem step_ck1_ok (c : Nat) (st : mavlink_status_t) (rx rm : mavlink_message_t)
    (rs : mavlink_status_t) (h : st.parse_state = MAVLINK_PARSE_STATE_GOT_PAYLOAD)
    (hc : c = rx.ck_a) :
    mavlink_parse_char c st rx rm rs =
      ⟨0, { st with msg_received := 0, parse_state := MAVLINK_PARSE_STATE_GOT_CRC1 },
       rx, rm, rsCopy rs st⟩ := by
  unfold mavlink_parse_char
  rw [init_noop st (by rw [h]; decide) (by rw [h]; decide)]
  simp [h, hc, MAVLINK_PARSE_STATE_UNINIT, MAVLINK_PARSE_STATE_IDLE,
    MAVLINK_PARSE_STATE_GOT_STX, MAVLINK_PARSE_STATE_GOT_LENGTH,
    MAVLINK_PARSE_STATE_GOT_SEQ, MAVLINK_PARSE_STATE_GOT_SYSID,
    MAVLINK_PARSE_STATE_GOT_COMPID, MAVLINK_PARSE_STATE_GOT_MSGID,
    MAVLINK_PARSE_STATE_GOT_PAYLOAD, MAVLINK_PARSE_STATE_GOT_CRC1, rsCopy]

theorem step_ck2_bad (c : Nat) (st : mavlink_status_t) (rx rm : mavlink_message_t)
    (rs : mavlink_status_t) (h : st.parse_state = MAVLINK_PARSE_STATE_GOT_CRC1)
    (hc : c ≠ rx.ck_b) :
    mavlink_parse_char c st rx rm rs =
      ⟨0, { st with
              msg_received := 0, parse_error := st.parse_error + 1,
              parse_state := MAVLINK_PARSE_STATE_IDLE }, rx, rm, rsCopy rs st⟩ := by
  unfold mavlink_parse_char
  rw [init_noop st (by rw [h]; decide) (by rw [h]; decide)]
  simp [h, hc, MAVLINK_PARSE_STATE_UNINIT, MAVLINK_PARSE_STATE_IDLE,
    MAVLINK_PARSE_STATE_GOT_STX, MAVLINK_PARSE_STATE_GOT_LENGTH,
    MAVLINK_PARSE_STATE_GOT_SEQ, MAVLINK_PARSE_STATE_GOT_SYSID,
    MAVLINK_PARSE_STATE_GOT_COMPID, MAVLINK_PARSE_STATE_GOT_MSGID,
    MAVLINK_PARSE_STATE_GOT_PAYLOAD, MAVLINK_PARSE_STATE_GOT_CRC1, rsCopy]

theorem step_ck2_ok (c : Nat) (st : mavlink_status_t) (rx rm : mavlink_message_t)
    (rs : mavlink_status_t) (h : st.parse_state = MAVLINK_PARSE_STATE_GOT_CRC1)
    (hc : c = rx.ck_b) (hcur : st.current_seq < 256) (hseq : rx.seq < 256) :
    mavlink_parse_char c st rx rm rs =
      ⟨1, acceptStatus st rx.seq, rx, rx, rsCopy rs (acceptStatus st rx.seq)⟩ := by
  unfold mavlink_parse_char
  rw [init_noop st (by rw [h]; decide) (by rw [h]; decide)]
  have hcu := seqCatchUp_eq 256 st.current_seq rx.seq hcur hseq (by omega)
  simp [h, hc, hcu, MAVLINK_PARSE_STATE_UNINIT, MAVLINK_PARSE_STATE_IDLE,
    MAVLINK_PARSE_STATE_GOT_STX, MAVLINK_PARSE_STATE_GOT_LENGTH,
    MAVLINK_PARSE_STATE_GOT_SEQ, MAVLINK_PARSE_STATE_GOT_SYSID,
    MAVLINK_PARSE_STATE_GOT_COMPID, MAVLINK_PARSE_STATE_GOT_MSGID,
    MAVLINK_PARSE_STATE_GOT_PAYLOAD, MAVLINK_PARSE_STATE_GOT_CRC1,
    acceptStatus, rsCopy]
  split <;> simp

@[simp]
theorem update_ck_len (msg : mavlink_message_t) (c : Nat) :
    (mavlink_update_checksum msg c).len = msg.len := rfl

@[simp]
theorem update_ck_seq (msg : mavlink_message_t) (c : Nat) :
    (mavlink_update_checksum msg c).seq = msg.seq := rfl

@[simp]
theorem update_ck_sysid (msg : mavlink_message_t) (c : Nat) :
    (mavlink_update_checksum msg c).sysid = msg.sysid := rfl

@[simp]
theorem update_ck_compid (msg : mavlink_message_t) (c : Nat) :
    (mavlink_update_checksum msg c).compid = msg.compid := rfl

@[simp]
theorem update_ck_msgid (msg : mavlink_message_t) (c : Nat) :
    (mavlink_update_checksum msg c).msgid = msg.msgid := rfl

@[simp]
theorem update_ck_payload (msg : mavlink_message_t) (c : Nat) :
    (mavlink_update_checksum msg c).payload = msg.payload := rfl

theorem ckNat_update (msg : mavlink_message_t) (c : Nat) :
    ckNat (mavlink_update_checksum msg c) = crcAccumulateFn (ckNat msg) c := by
  simp [ckNat, mavlink_update_checksum, Nat.mod_add_div]

@[simp]
theorem update_ck_recombine (msg : mavlink_message_t) (c : Nat) :
    (mavlink_update_checksum msg c).ck_a + 256 * (mavlink_update_checksum msg c).ck_b =
      crcAccumulateFn (msg.ck_a + 256 * msg.ck_b) c := by
  simp [mavlink_update_checksum, Nat.mod_add_div]

theorem writeRange_cons (f : Nat → Nat) (i b : Nat) (bs : List Nat) :
    writeRange f i (b :: bs) = writeRange (Function.update f i b) (i + 1) bs := rfl

theorem ckList_cons (v b : Nat) (bs : List Nat) :
    ckList v (b :: bs) = ckList (crcAccumulateFn v b) bs := rfl

theorem ckList_append (v : Nat) (xs ys : List Nat) :
    ckList v (xs ++ ys) = ckList (ckList v xs) ys := by
  simp [ckList, List.foldl_append]

theorem feed_payload : ∀ (k i : Nat) (p : Nat → Nat) (rest : List Nat)
    (st : mavlink_status_t) (rx rm : mavlink_message_t) (rs : mavlink_status_t),
    st.parse_state = MAVLINK_PARSE_STATE_GOT_MSGID → st.packet_idx = i →
    rx.len = i + k → rx.len ≤ 255 → 1 ≤ k →
    feedBytes ((List.range' i k).map p ++ rest) st rx rm rs =
      feedBytes rest
        { st with
            msg_received := 0, packet_idx := i + k,
            parse_state := MAVLINK_PARSE_STATE_GOT_PAYLOAD }
        { rx with
            payload := writeRange rx.payload i ((List.range' i k).map p),
            ck_a := ckList (ckNat rx) ((List.range' i k).map p) % 256,
            ck_b := ckList (ckNat rx) ((List.range' i k).map p) / 256 }
        rm (rsCopy rs st) := by
  intro k
  induction k with
  | zero => intro i p rest st rx rm rs _ _ _ _ hk; omega
  | succ k ih =>
    intro i p rest st rx rm rs h hidx hlen hle _
    simp only [List.range', List.map_cons, List.cons_append]
    rw [feedBytes]
    rw [step_payload_byte (p i) st rx rm rs h]
    have hmod : (st.packet_idx + 1) % 256 = i + 1 := by omega
    by_cases hk0 : k = 0
    · subst hk0
      have hcond : (st.packet_idx + 1) % 256 = rx.len := by omega
      simp only [List.range', List.map_nil, List.nil_append]
      have hlt : i + 1 < 256 := by omega
      have hmod2 : (i + 1) % 256 = i + 1 := Nat.mod_eq_of_lt hlt
      simp [hmod, hmod2, hlt, hlen, hidx, writeRange, ckList, ckNat,
        mavlink_update_checksum, rsCopy, feedBytes]
    · have hcond : ¬ ((st.packet_idx + 1) % 256 = rx.len) := by omega
      rw [hmod] at hcond
      rw [ih (i + 1) p rest _ _ rm _ (by simp [hmod, hcond]) (by simp [hmod])
        (by simp; omega) (by simp; omega) (by omega)]
      have harith : i + 1 + k = i + (k + 1) := by omega
      simp [hmod, hcond, hidx, harith, writeRange_cons, ckList_cons, ckNat,
        rsCopy, List.range']

theorem feed_one_wait (c : Nat) (cs : List Nat) (st : mavlink_status_t)
    (rx rm : mavlink_message_t) (rs : mavlink_status_t)
    (hps : st.parse_state = MAVLINK_PARSE_STATE_UNINIT ∨
           st.parse_state = MAVLINK_PARSE_STATE_IDLE)
    (hstable : mavlink_parse_state_init st = st) (hc : c ≠ MAVLINK_STX) :
    feedBytes (c :: cs) st rx rm rs =
      feedBytes cs { st with msg_received := 0 } rx rm (rsCopy rs st) := by
  rw [feedBytes, step_wait c st rx rm rs hps hstable hc]
  simp

theorem feed_one_stx (c : Nat) (cs : List Nat) (st : mavlink_status_t)
    (rx rm : mavlink_message_t) (rs : mavlink_status_t)
    (hps : st.parse_state = MAVLINK_PARSE_STATE_UNINIT ∨
           st.parse_state = MAVLINK_PARSE_STATE_IDLE)
    (hstable : mavlink_parse_state_init st = st) (hc : c = MAVLINK_STX) :
    feedBytes (c :: cs) st rx rm rs =
      feedBytes cs { st with msg_received := 0, parse_state := MAVLINK_PARSE_STATE_GOT_STX }
        (mavlink_start_checksum rx) rm (rsCopy rs st) := by
  rw [feedBytes, step_stx c st rx rm rs hps hstable hc]
  simp

theorem feed_one_length (c : Nat) (cs : List Nat) (st : mavlink_status_t)
    (rx rm : mavlink_message_t) (rs : mavlink_status_t)
    (h : st.parse_state = MAVLINK_PARSE_STATE_GOT_STX) :
    feedBytes (c :: cs) st rx rm rs =
      feedBytes cs
        { st with
            msg_received := 0, packet_idx := 0,
            parse_state := MAVLINK_PARSE_STATE_GOT_LENGTH }
        (mavlink_update_checksum { rx with len := c } c) rm (rsCopy rs st) := by
  rw [feedBytes, step_length c st rx rm rs h]
  simp

theorem feed_one_seq (c : Nat) (cs : List Nat) (st : mavlink_status_t)
    (rx rm : mavlink_message_t) (rs : mavlink_status_t)
    (h : st.parse_state = MAVLINK_PARSE_STATE_GOT_LENGTH) :
    feedBytes (c :: cs) st rx rm rs =
      feedBytes cs { st with msg_received := 0, parse_state := MAVLINK_PARSE_STATE_GOT_SEQ }
        (mavlink_update_checksum { rx with seq := c } c) rm (rsCopy rs st) := by
  rw [feedBytes, step_seq c st rx rm rs h]
  simp

theorem feed_one_sysid (c : Nat) (cs : List Nat) (st : mavlink_status_t)
    (rx rm : mavlink_message_t) (rs : mavlink_status_t)
    (h : st.parse_state = MAVLINK_PARSE_STATE_GOT_SEQ) :
    feedBytes (c :: cs) st rx rm rs =
      feedBytes cs { st with msg_received := 0, parse_state := MAVLINK_PARSE_STATE_GOT_SYSID }
        (mavlink_update_checksum { rx with sysid := c } c) rm (rsCopy rs st) := by
  rw [feedBytes, step_sysid c st rx rm rs h]
  simp

theorem feed_one_compid (c : Nat) (cs : List Nat) (st : mavlink_status_t)
    (rx rm : mavlink_message_t) (rs : mavlink_status_t)
    (h : st.parse_state = MAVLINK_PARSE_STATE_GOT_SYSID) :
    feedBytes (c :: cs) st rx rm rs =
      feedBytes cs { st with msg_received := 0, parse_state := MAVLINK_PARSE_STATE_GOT_COMPID }
        (mavlink_update_checksum { rx with compid := c } c) rm (rsCopy rs st) := by
  rw [feedBytes, step_compid c st rx rm rs h]
  simp

theorem feed_one_msgid (c : Nat) (cs : List Nat) (st : mavlink_status_t)
    (rx rm : mavlink_message_t) (rs : mavlink_status_t)
    (h : st.parse_state = MAVLINK_PARSE_STATE_GOT_COMPID) :
    feedBytes (c :: cs) st rx rm rs =
      feedBytes cs
        { st with
            msg_received := 0,
            parse_state := if rx.len = 0 then MAVLINK_PARSE_STATE_GOT_PAYLOAD
                           else MAVLINK_PARSE_STATE_GOT_MSGID }
        (mavlink_update_checksum { rx with msgid := c } c) rm (rsCopy rs st) := by
  rw [feedBytes, step_msgid c st rx rm rs h]
  simp

theorem feed_one_ck1_ok (c : Nat) (cs : List Nat) (st : mavlink_status_t)
    (rx rm : mavlink_message_t) (rs : mavlink_status_t)
    (h : st.parse_state = MAVLINK_PARSE_STATE_GOT_PAYLOAD) (hc : c = rx.ck_a) :
    feedBytes (c :: cs) st rx rm rs =
      feedBytes cs { st with msg_received := 0, parse_state := MAVLINK_PARSE_STATE_GOT_CRC1 }
        rx rm (rsCopy rs st) := by
  rw [feedBytes, step_ck1_ok c st rx rm rs h hc]
  simp

theorem feed_one_ck1_bad (c : Nat) (cs : List Nat) (st : mavlink_status_t)
    (rx rm : mavlink_message_t) (rs : mavlink_status_t)
    (h : st.parse_state = MAVLINK_PARSE_STATE_GOT_PAYLOAD) (hc : c ≠ rx.ck_a) :
    feedBytes (c :: cs) st rx rm rs =
      feedBytes cs
        { st with
            msg_received := 0, parse_error := st.parse_error + 1,
            parse_state := MAVLINK_PARSE_STATE_IDLE } rx rm (rsCopy rs st) := by
  rw [feedBytes, step_ck1_bad c st rx rm rs h hc]
  simp

theorem feed_one_ck2_bad (c : Nat) (cs : List Nat) (st : mavlink_status_t)
    (rx rm : mavlink_message_t) (rs : mavlink_status_t)
    (h : st.parse_state = MAVLINK_PARSE_STATE_GOT_CRC1) (hc : c ≠ rx.ck_b) :
    feedBytes (c :: cs) st rx rm rs =
      feedBytes cs
        { st with
            msg_received := 0, parse_error := st.parse_error + 1,
            parse_state := MAVLINK_PARSE_STATE_IDLE } rx rm (rsCopy rs st) := by
  rw [feedBytes, step_ck2_bad c st rx rm rs h hc]
  simp

theorem feed_one_ck2_ok (c : Nat) (cs : List Nat) (st : mavlink_status_t)
    (rx rm : mavlink_message_t) (rs : mavlink_status_t)
    (h : st.parse_state = MAVLINK_PARSE_STATE_GOT_CRC1) (hc : c = rx.ck_b)
    (hcur : st.current_seq < 256) (hseq : rx.seq < 256) :
    feedBytes (c :: cs) st rx rm rs =
      bumpCount (feedBytes cs (acceptStatus st rx.seq) rx rx
        (rsCopy rs (acceptStatus st rx.seq))) := by
  rw [feedBytes, step_ck2_ok c st rx rm rs h hc hcur hseq]
  simp [bumpCount, Nat.add_comm]


theorem rsCopy_rsCopy (rs st st2 : mavlink_status_t) :
    rsCopy (rsCopy rs st) st2 = rsCopy rs st2 := by
  simp [rsCopy]

theorem feed_hop_length (c v l s0 sy0 cp0 mi0 : Nat) (pl : Nat → Nat) (cs : List Nat)
    (st : mavlink_status_t) (rm : mavlink_message_t) (rs : mavlink_status_t) :
    feedBytes (c :: cs)
      { st with msg_received := 0, parse_state := MAVLINK_PARSE_STATE_GOT_STX }
      ⟨l, s0, sy0, cp0, mi0, pl, v % 256, v / 256⟩ rm rs =
      feedBytes cs
        { st with
            msg_received := 0, packet_idx := 0,
            parse_state := MAVLINK_PARSE_STATE_GOT_LENGTH }
        ⟨c, s0, sy0, cp0, mi0, pl, crcAccumulateFn v c % 256, crcAccumulateFn v c / 256⟩
        rm (rsCopy rs st) := by
  rw [feed_one_length c cs _ _ rm rs rfl]
  simp [mavlink_update_checksum, rsCopy, Nat.mod_add_div]

theorem feed_hop_seq (c v l s0 sy0 cp0 mi0 : Nat) (pl : Nat → Nat) (cs : List Nat)
    (st : mavlink_status_t) (rm : mavlink_message_t) (rs : mavlink_status_t) :
    feedBytes (c :: cs)
      { st with
          msg_received := 0, packet_idx := 0,
          parse_state := MAVLINK_PARSE_STATE_GOT_LENGTH }
      ⟨l, s0, sy0, cp0, mi0, pl, v % 256, v / 256⟩ rm rs =
      feedBytes cs
        { st with
            msg_received := 0, packet_idx := 0,
            parse_state := MAVLINK_PARSE_STATE_GOT_SEQ }
        ⟨l, c, sy0, cp0, mi0, pl, crcAccumulateFn v c % 256, crcAccumulateFn v c / 256⟩
        rm (rsCopy rs st) := by
  rw [feed_one_seq c cs _ _ rm rs rfl]
  simp [mavlink_update_checksum, rsCopy, Nat.mod_add_div]

theorem feed_hop_sysid (c v l s0 sy0 cp0 mi0 : Nat) (pl : Nat → Nat) (cs : List Nat)
    (st : mavlink_status_t) (rm : mavlink_message_t) (rs : mavlink_status_t) :
    feedBytes (c :: cs)
      { st with
          msg_received := 0, packet_idx := 0,
          parse_state := MAVLINK_PARSE_STATE_GOT_SEQ }
      ⟨l, s0, sy0, cp0, mi0, pl, v % 256, v / 256⟩ rm rs =
      feedBytes cs
        { st with
            msg_received := 0, packet_idx := 0,
            parse_state := MAVLINK_PARSE_STATE_GOT_SYSID }
        ⟨l, s0, c, cp0, mi0, pl, crcAccumulateFn v c % 256, crcAccumulateFn v c / 256⟩
        rm (rsCopy rs st) := by
  rw [feed_one_sysid c cs _ _ rm rs rfl]
  simp [mavlink_update_checksum, rsCopy, Nat.mod_add_div]

theorem feed_hop_compid (c v l s0 sy0 cp0 mi0 : Nat) (pl : Nat → Nat) (cs : List Nat)
    (st : mavlink_status_t) (rm : mavlink_message_t) (rs : mavlink_status_t) :
    feedBytes (c :: cs)
      { st with
          msg_received := 0, packet_idx := 0,
          parse_state := MAVLINK_PARSE_STATE_GOT_SYSID }
      ⟨l, s0, sy0, cp0, mi0, pl, v % 256, v / 256⟩ rm rs =
      feedBytes cs
        { st with
            msg_received := 0, packet_idx := 0,
            parse_state := MAVLINK_PARSE_STATE_GOT_COMPID }
        ⟨l, s0, sy0, c, mi0, pl, crcAccumulateFn v c % 256, crcAccumulateFn v c / 256⟩
        rm (rsCopy rs st) := by
  rw [feed_one_compid c cs _ _ rm rs rfl]
  simp [mavlink_update_checksum, rsCopy, Nat.mod_add_div]

theorem feed_hop_msgid (c v l s0 sy0 cp0 mi0 : Nat) (pl : Nat → Nat) (cs : List Nat)
    (st : mavlink_status_t) (rm : mavlink_message_t) (rs : mavlink_status_t) :
    feedBytes (c :: cs)
      { st with
          msg_received := 0, packet_idx := 0,
          parse_state := MAVLINK_PARSE_STATE_GOT_COMPID }
      ⟨l, s0, sy0, cp0, mi0, pl, v % 256, v / 256⟩ rm rs =
      feedBytes cs
        { st with
            msg_received := 0, packet_idx := 0,
            parse_state := if l = 0 then MAVLINK_PARSE_STATE_GOT_PAYLOAD
                           else MAVLINK_PARSE_STATE_GOT_MSGID }
        ⟨l, s0, sy0, cp0, c, pl, crcAccumulateFn v c % 256, crcAccumulateFn v c / 256⟩
        rm (rsCopy rs st) := by
  rw [feed_one_msgid c cs _ _ rm rs rfl]
  simp [mavlink_update_checksum, rsCopy, Nat.mod_add_div]

theorem feed_hop_ck1_ok (v pi l s0 sy0 cp0 mi0 : Nat) (pl : Nat → Nat) (cs : List Nat)
    (st : mavlink_status_t) (rm : mavlink_message_t) (rs : mavlink_status_t) :
    feedBytes (v % 256 :: cs)
      { st with
          msg_received := 0, packet_idx := pi,
          parse_state := MAVLINK_PARSE_STATE_GOT_PAYLOAD }
      ⟨l, s0, sy0, cp0, mi0, pl, v % 256, v / 256⟩ rm rs =
      feedBytes cs
        { st with
            msg_received := 0, packet_idx := pi,
            parse_state := MAVLINK_PARSE_STATE_GOT_CRC1 }
        ⟨l, s0, sy0, cp0, mi0, pl, v % 256, v / 256⟩ rm (rsCopy rs st) := by
  rw [feed_one_ck1_ok (v % 256) cs _ _ rm rs rfl rfl]
  simp [rsCopy]

theorem feed_hop_ck1_bad (c v pi l s0 sy0 cp0 mi0 : Nat) (pl : Nat → Nat) (cs : List Nat)
    (st : mavlink_status_t) (rm : mavlink_message_t) (rs : mavlink_status_t)
    (hc : c ≠ v % 256) :
    feedBytes (c :: cs)
      { st with
          msg_received := 0, packet_idx := pi,
          parse_state := MAVLINK_PARSE_STATE_GOT_PAYLOAD }
      ⟨l, s0, sy0, cp0, mi0, pl, v % 256, v / 256⟩ rm rs =
      feedBytes cs
        { st with
            msg_received := 0, packet_idx := pi,
            parse_error := st.parse_error + 1,
            parse_state := MAVLINK_PARSE_STATE_IDLE }
        ⟨l, s0, sy0, cp0, mi0, pl, v % 256, v / 256⟩ rm (rsCopy rs st) := by
  rw [feed_one_ck1_bad c cs _ _ rm rs rfl hc]
  simp [rsCopy]

theorem feed_hop_ck2_bad (c v pi l s0 sy0 cp0 mi0 : Nat) (pl : Nat → Nat) (cs : List Nat)
    (st : mavlink_status_t) (rm : mavlink_message_t) (rs : mavlink_status_t)
    (hc : c ≠ v / 256) :
    feedBytes (c :: cs)
      { st with
          msg_received := 0, packet_idx := pi,
          parse_state := MAVLINK_PARSE_STATE_GOT_CRC1 }
      ⟨l, s0, sy0, cp0, mi0, pl, v % 256, v / 256⟩ rm rs =
      feedBytes cs
        { st with
            msg_received := 0, packet_idx := pi,
            parse_error := st.parse_error + 1,
            parse_state := MAVLINK_PARSE_STATE_IDLE }
        ⟨l, s0, sy0, cp0, mi0, pl, v % 256, v / 256⟩ rm (rsCopy rs st) := by
  rw [feed_one_ck2_bad c cs _ _ rm rs rfl hc]
  simp [rsCopy]

theorem feed_hop_ck2_ok (v pi l s0 sy0 cp0 mi0 : Nat) (pl : Nat → Nat) (cs : List Nat)
    (st : mavlink_status_t) (rm : mavlink_message_t) (rs : mavlink_status_t)
    (hcur : st.current_seq < 256) (hseq : s0 < 256) :
    feedBytes (v / 256 :: cs)
      { st with
          msg_received := 0, packet_idx := pi,
          parse_state := MAVLINK_PARSE_STATE_GOT_CRC1 }
      ⟨l, s0, sy0, cp0, mi0, pl, v % 256, v / 256⟩ rm rs =
      bumpCount (feedBytes cs
        { st with
            msg_received := 1, packet_idx := pi,
            parse_state := MAVLINK_PARSE_STATE_IDLE, current_seq := s0,
            packet_rx_drop_count :=
              if st.packet_rx_success_count = 0 then 0
              else st.packet_rx_drop_count + (s0 + 256 - st.current_seq) % 256,
            packet_rx_success_count := st.packet_rx_success_count + 1 }
        ⟨l, s0, sy0, cp0, mi0, pl, v % 256, v / 256⟩
        ⟨l, s0, sy0, cp0, mi0, pl, v % 256, v / 256⟩
        (rsCopy rs
          { st with
              msg_received := 1, packet_idx := pi,
              parse_state := MAVLINK_PARSE_STATE_IDLE, current_seq := s0,
              packet_rx_drop_count :=
                if st.packet_rx_success_count = 0 then 0
                else st.packet_rx_drop_count + (s0 + 256 - st.current_seq) % 256,
              packet_rx_success_count := st.packet_rx_success_count + 1 })) := by
  rw [feed_one_ck2_ok (v / 256) cs _ _ rm rs rfl rfl (by simpa using hcur) (by simpa using hseq)]
  simp [acceptStatus, rsCopy]

theorem feed_body (l s sy cp mi : Nat) (p : Nat → Nat) (rest : List Nat)
    (st : mavlink_status_t) (rx rm : mavlink_message_t) (rs : mavlink_status_t)
    (hps : st.parse_state = MAVLINK_PARSE_STATE_UNINIT ∨
           st.parse_state = MAVLINK_PARSE_STATE_IDLE)
    (hstable : mavlink_parse_state_init st = st) (hl : l ≤ 255) :
    feedBytes (MAVLINK_STX :: l :: s :: sy :: cp :: mi ::
        ((List.range l).map p ++ rest)) st rx rm rs =
      feedBytes rest
        { st with
            msg_received := 0, packet_idx := l,
            parse_state := MAVLINK_PARSE_STATE_GOT_PAYLOAD }
        ⟨l, s, sy, cp, mi, writeRange rx.payload 0 ((List.range l).map p),
          frameCk l s sy cp mi p % 256, frameCk l s sy cp mi p / 256⟩
        rm (rsCopy rs st) := by
  have hck : frameCk l s sy cp mi p =
      ckList (crcAccumulateFn (crcAccumulateFn (crcAccumulateFn (crcAccumulateFn
        (crcAccumulateFn crcInitValue l) s) sy) cp) mi) ((List.range l).map p) := by
    simp [frameCk, crc_calculate, ckList, List.foldl_append]
  rw [feed_one_stx _ _ _ _ _ _ hps hstable rfl]
  simp only [mavlink_start_checksum]
  rw [feed_hop_length]
  rw [feed_hop_seq]
  rw [feed_hop_sysid]
  rw [feed_hop_compid]
  rw [feed_hop_msgid]
  simp only [rsCopy_rsCopy]
  by_cases hl0 : l = 0
  · subst hl0
    rw [hck]
    simp [writeRange, ckList, rsCopy]
  · rw [List.range_eq_range']
    rw [feed_payload l 0 p rest _ _ rm _ (by simp [hl0]) (by simp) (by simp)
      (by simp [hl]) (by omega)]
    rw [hck]
    simp only [rsCopy_rsCopy]
    simp [ckNat, Nat.mod_add_div, rsCopy, List.range_eq_range']

theorem goodFrame_feed (l s sy cp mi : Nat) (p : Nat → Nat) (rest : List Nat)
    (st : mavlink_status_t) (rx rm : mavlink_message_t) (rs : mavlink_status_t)
    (hps : st.parse_state = MAVLINK_PARSE_STATE_UNINIT ∨
           st.parse_state = MAVLINK_PARSE_STATE_IDLE)
    (hstable : mavlink_parse_state_init st = st) (hl : l ≤ 255) (hs : s < 256)
    (hcur : st.current_seq < 256) :
    feedBytes (goodFrame l s sy cp mi p ++ rest) st rx rm rs =
      bumpCount (feedBytes rest
        { st with
            msg_received := 1, packet_idx := l,
            parse_state := MAVLINK_PARSE_STATE_IDLE, current_seq := s,
            packet_rx_drop_count :=
              if st.packet_rx_success_count = 0 then 0
              else st.packet_rx_drop_count + (s + 256 - st.current_seq) % 256,
            packet_rx_success_count := st.packet_rx_success_count + 1 }
        ⟨l, s, sy, cp, mi, writeRange rx.payload 0 ((List.range l).map p),
          frameCk l s sy cp mi p % 256, frameCk l s sy cp mi p / 256⟩
        ⟨l, s, sy, cp, mi, writeRange rx.payload 0 ((List.range l).map p),
          frameCk l s sy cp mi p % 256, frameCk l s sy cp mi p / 256⟩
        (rsCopy rs
          { st with
              msg_received := 1, packet_idx := l,
              parse_state := MAVLINK_PARSE_STATE_IDLE, current_seq := s,
              packet_rx_drop_count :=
                if st.packet_rx_success_count = 0 then 0
                else st.packet_rx_drop_count + (s + 256 - st.current_seq) % 256,
              packet_rx_success_count := st.packet_rx_success_count + 1 })) := by
  have hshape : goodFrame l s sy cp mi p ++ rest =
      MAVLINK_STX :: l :: s :: sy :: cp :: mi ::
        ((List.range l).map p ++
          (frameCk l s sy cp mi p % 256 :: frameCk l s sy cp mi p / 256 :: rest)) := by
    simp [goodFrame, frameWith]
  rw [hshape]
  rw [feed_body l s sy cp mi p _ st rx rm rs hps hstable hl]
  rw [feed_hop_ck1_ok]
  simp only [rsCopy_rsCopy]
  rw [feed_hop_ck2_ok _ _ _ _ _ _ _ _ _ _ _ _ hcur hs]
  simp only [rsCopy_rsCopy]

theorem badFrame_feed (l s sy cp mi t1 t2 : Nat) (p : Nat → Nat) (rest : List Nat)
    (st : mavlink_status_t) (rx rm : mavlink_message_t) (rs : mavlink_status_t)
    (hps : st.parse_state = MAVLINK_PARSE_STATE_UNINIT ∨
           st.parse_state = MAVLINK_PARSE_STATE_IDLE)
    (hstable : mavlink_parse_state_init st = st) (hl : l ≤ 255)
    (hbad : ¬(t1 = frameCk l s sy cp mi p % 256 ∧ t2 = frameCk l s sy cp mi p / 256))
    (hside : t1 = frameCk l s sy cp mi p % 256 ∨ t2 ≠ MAVLINK_STX) :
    feedBytes (frameWith l s sy cp mi p t1 t2 ++ rest) st rx rm rs =
      feedBytes rest
        { st with
            msg_received := 0, packet_idx := l,
            parse_error := st.parse_error + 1,
            parse_state := MAVLINK_PARSE_STATE_IDLE }
        ⟨l, s, sy, cp, mi, writeRange rx.payload 0 ((List.range l).map p),
          frameCk l s sy cp mi p % 256, frameCk l s sy cp mi p / 256⟩
        rm (rsCopy rs st) := by
  have hshape : frameWith l s sy cp mi p t1 t2 ++ rest =
      MAVLINK_STX :: l :: s :: sy :: cp :: mi ::
        ((List.range l).map p ++ (t1 :: t2 :: rest)) := by
    simp [frameWith]
  rw [hshape]
  rw [feed_body l s sy cp mi p _ st rx rm rs hps hstable hl]
  by_cases h1 : t1 = frameCk l s sy cp mi p % 256
  · have h2 : t2 ≠ frameCk l s sy cp mi p / 256 := by tauto
    subst h1
    rw [feed_hop_ck1_ok]
    simp only [rsCopy_rsCopy]
    rw [feed_hop_ck2_bad _ _ _ _ _ _ _ _ _ _ _ _ _ h2]
    simp only [rsCopy_rsCopy]
  · have h2 : t2 ≠ MAVLINK_STX := by tauto
    rw [feed_hop_ck1_bad _ _ _ _ _ _ _ _ _ _ _ _ _ h1]
    simp only [rsCopy_rsCopy]
    rw [feed_one_wait t2 rest _ _ rm _ (Or.inr rfl) rfl h2]
    simp [rsCopy]

theorem writeRange_lt : ∀ (bs : List Nat) (f : Nat → Nat) (i k : Nat), k < i →
    writeRange f i bs k = f k := by
  intro bs
  induction bs with
  | nil => intro f i k _; rfl
  | cons b bs ih =>
    intro f i k hk
    rw [writeRange_cons, ih _ (i + 1) k (by omega)]
    have hne : k ≠ i := by omega
    exact Function.update_noteq hne b f

theorem writeRange_map_get : ∀ (n i j : Nat) (p f : Nat → Nat), i ≤ j → j < i + n →
    writeRange f i ((List.range' i n).map p) j = p j := by
  intro n
  induction n with
  | zero => intro i j p f h1 h2; omega
  | succ n ih =>
    intro i j p f h1 h2
    simp only [List.range', List.map_cons, writeRange_cons]
    by_cases hij : j = i
    · subst hij
      rw [writeRange_lt _ _ _ _ (by omega)]
      exact Function.update_same j (p j) f
    · rw [ih (i + 1) j p _ (by omega) (by omega)]

theorem writeRange_range_get (n j : Nat) (p f : Nat → Nat) (h : j < n) :
    writeRange f 0 ((List.range n).map p) j = p j := by
  rw [List.range_eq_range']
  exact writeRange_map_get n 0 j p f (by omega) (by omega)

theorem to_send_buffer_finalize (draft : mavlink_message_t) (sys comp length seqC : Nat) :
    message_to_send_buffer (finalize_message draft sys comp length seqC).1 =
      goodFrame (length % 256) (seqC % 256) sys comp draft.msgid draft.payload := by
  simp [message_to_send_buffer, finalize_message, coreHeaderPayloadBytes,
    goodFrame, frameWith, frameCk]

theorem feedStates_cons (c : Nat) (cs : List Nat) (st : mavlink_status_t)
    (rx rm : mavlink_message_t) (rs : mavlink_status_t) :
    feedStates (c :: cs) st rx rm rs =
      (mavlink_parse_char c st rx rm rs).status.parse_state ::
        feedStates cs (mavlink_parse_char c st rx rm rs).status
          (mavlink_parse_char c st rx rm rs).rxmsg
          (mavlink_parse_char c st rx rm rs).r_message
          (mavlink_parse_char c st rx rm rs).r_status := rfl

/-- `put_uint8_t_by_index` (protocol.h lines 310-314): write the byte at
`buffer[bindex]`, return sizeof = 1.  Buffers are embedded as total
functions from index to byte; a write is a pointwise update. -/
def put_uint8_t_by_index (b bindex : Nat) (buffer : Nat → Nat) : Nat × (Nat → Nat) :=
  (1, Function.update buffer bindex b)

/-- `put_int8_by_index` (protocol.h lines 324-328): signed bytes are
represented by their two's-complement bit pattern (the C cast `(uint8_t)b`
is the identity on patterns). -/
def put_int8_by_index (b bindex : Nat) (buffer : Nat → Nat) : Nat × (Nat → Nat) :=
  (1, Function.update buffer bindex b)

/-- `put_uint16_t_by_index` (protocol.h lines 338-343): big-endian. -/
def put_uint16_t_by_index (b bindex : Nat) (buffer : Nat → Nat) : Nat × (Nat → Nat) :=
  let buffer := Function.update buffer bindex ((b >>> 8) &&& 255)
  let buffer := Function.update buffer (bindex + 1) (b &&& 255)
  (2, buffer)

/-- `put_int16_t_by_index` (protocol.h lines 353-356): delegates to the
unsigned variant on the two's-complement pattern. -/
def put_int16_t_by_index (b bindex : Nat) (buffer : Nat → Nat) : Nat × (Nat → Nat) :=
  put_uint16_t_by_index b bindex buffer

/-- `put_uint32_t_by_index` (protocol.h lines 366-373): big-endian. -/
def put_uint32_t_by_index (b bindex : Nat) (buffer : Nat → Nat) : Nat × (Nat → Nat) :=
  let buffer := Function.update buffer bindex ((b >>> 24) &&& 255)
  let buffer := Function.update buffer (bindex + 1) ((b >>> 16) &&& 255)
  let buffer := Function.update buffer (bindex + 2) ((b >>> 8) &&& 255)
  let buffer := Function.update buffer (bindex + 3) (b &&& 255)
  (4, buffer)

/-- `put_int32_t_by_index` (protocol.h lines 383-390): same byte
extraction as the unsigned variant, on the two's-complement pattern. -/
def put_int32_t_by_index (b bindex : Nat) (buffer : Nat → Nat) : Nat × (Nat → Nat) :=
  let buffer := Function.update buffer bindex ((b >>> 24) &&& 255)
  let buffer := Function.update buffer (bindex + 1) ((b >>> 16) &&& 255)
  let buffer := Function.update buffer (bindex + 2) ((b >>> 8) &&& 255)
  let buffer := Function.update buffer (bindex + 3) (b &&& 255)
  (4, buffer)

/-- `put_uint64_t_by_index` (protocol.h lines 400-411): big-endian. -/
def put_uint64_t_by_index (b bindex : Nat) (buffer : Nat → Nat) : Nat × (Nat → Nat) :=
  let buffer := Function.update buffer bindex ((b >>> 56) &&& 255)
  let buffer := Function.update buffer (bindex + 1) ((b >>> 48) &&& 255)
  let buffer := Function.update buffer (bindex + 2) ((b >>> 40) &&& 255)
  let buffer := Function.update buffer (bindex + 3) ((b >>> 32) &&& 255)
  let buffer := Function.update buffer (bindex + 4) ((b >>> 24) &&& 255)
  let buffer := Function.update buffer (bindex + 5) ((b >>> 16) &&& 255)
  let buffer := Function.update buffer (bindex + 6) ((b >>> 8) &&& 255)
  let buffer := Function.update buffer (bindex + 7) (b &&& 255)
  (8, buffer)

/-- `put_int64_t_by_index` (protocol.h lines 421-424): delegates. -/
def put_int64_t_by_index (b bindex : Nat) (buffer : Nat → Nat) : Nat × (Nat → Nat) :=
  put_uint64_t_by_index b bindex buffer

/-- `put_float_by_index` (protocol.h lines 434-439): the `generic_32bit`
union reinterprets the float's storage as a 32-bit integer; a float value
is embedded here by that 32-bit bit pattern, on which the reinterpretation
is the identity, so the function writes the exact pattern big-endian. -/
def put_float_by_index (b bindex : Nat) (buffer : Nat → Nat) : Nat × (Nat → Nat) :=
  put_int32_t_by_index b bindex buffer

/-- `put_array_by_index` (protocol.h lines 450-454): memcpy of `length`
raw bytes, returns `length`. -/
def put_array_by_index (b : List Nat) (length bindex : Nat) (buffer : Nat → Nat) :
    Nat × (Nat → Nat) :=
  (length, writeRange buffer bindex (b.take length))

/-- The structural invariant of the in-progress parse (claim C9): the
payload cursor never exceeds the in-progress length field, which is at
most 255; while accumulating payload the cursor is strictly below the
length; and in the header states after GOT_STX the cursor is still 0. -/
def ParserInv (st : mavlink_status_t) (rx : mavlink_message_t) : Prop :=
  rx.len ≤ 255 ∧ st.packet_idx ≤ rx.len ∧
  (st.parse_state = MAVLINK_PARSE_STATE_GOT_MSGID → st.packet_idx < rx.len) ∧
  (MAVLINK_PARSE_STATE_GOT_LENGTH ≤ st.parse_state ∧
    st.parse_state ≤ MAVLINK_PARSE_STATE_GOT_COMPID → st.packet_idx = 0)

instance (st : mavlink_status_t) (rx : mavlink_message_t) :
    Decidable (ParserInv st rx) := by
  unfold ParserInv
  infer_instance

theorem init_idem (st : mavlink_status_t) :
    mavlink_parse_state_init (mavlink_parse_state_init st) = mavlink_parse_state_init st := by
  by_cases h : st.parse_state = 0 ∨ 9 < st.parse_state <;>
    simp [mavlink_parse_state_init, h, MAVLINK_PARSE_STATE_UNINIT,
      MAVLINK_PARSE_STATE_GOT_CRC1]

theorem parse_char_init (c : Nat) (st : mavlink_status_t) (rx rm : mavlink_message_t)
    (rs : mavlink_status_t) :
    mavlink_parse_char c st rx rm rs =
      mavlink_parse_char c (mavlink_parse_state_init st) rx rm rs := by
  unfold mavlink_parse_char
  rw [init_idem]

theorem feedBytes_init (c : Nat) (cs : List Nat) (st : mavlink_status_t)
    (rx rm : mavlink_message_t) (rs : mavlink_status_t) :
    feedBytes (c :: cs) st rx rm rs =
      feedBytes (c :: cs) (mavlink_parse_state_init st) rx rm rs := by
  rw [feedBytes, feedBytes, ← parse_char_init]

theorem init_range (st : mavlink_status_t) :
    (mavlink_parse_state_init st).parse_state ≤ 9 := by
  by_cases h : st.parse_state = 0 ∨ 9 < st.parse_state <;>
    simp [mavlink_parse_state_init, h, MAVLINK_PARSE_STATE_UNINIT,
      MAVLINK_PARSE_STATE_GOT_CRC1] <;> omega

theorem init_ps9 (st : mavlink_status_t) :
    (mavlink_parse_state_init st).parse_state = 9 ↔ st.parse_state = 9 := by
  by_cases h : st.parse_state = 0 ∨ 9 < st.parse_state <;>
    simp [mavlink_parse_state_init, h, MAVLINK_PARSE_STATE_UNINIT,
      MAVLINK_PARSE_STATE_GOT_CRC1] <;> omega

theorem step_accept_raw (c : Nat) (st : mavlink_status_t) (rx rm : mavlink_message_t)
    (rs : mavlink_status_t) (h : st.parse_state = MAVLINK_PARSE_STATE_GOT_CRC1)
    (hc : c = rx.ck_b) :
    mavlink_parse_char c st rx rm rs =
      ⟨1,
       { st with
           msg_received := 1, parse_state := MAVLINK_PARSE_STATE_IDLE,
           current_seq := rx.seq,
           packet_rx_drop_count :=
             if st.packet_rx_success_count = 0 then 0
             else st.packet_rx_drop_count + (seqCatchUp 256 st.current_seq rx.seq).2,
           packet_rx_success_count := st.packet_rx_success_count + 1 },
       rx, rx,
       rsCopy rs
         { st with
             msg_received := 1, parse_state := MAVLINK_PARSE_STATE_IDLE,
             current_seq := rx.seq,
             packet_rx_drop_count :=
               if st.packet_rx_success_count = 0 then 0
               else st.packet_rx_drop_count + (seqCatchUp 256 st.current_seq rx.seq).2,
             packet_rx_success_count := st.packet_rx_success_count + 1 }⟩ := by
  unfold mavlink_parse_char
  rw [init_noop st (by rw [h]; decide) (by rw [h]; decide)]
  simp [h, hc, MAVLINK_PARSE_STATE_UNINIT, MAVLINK_PARSE_STATE_IDLE,
    MAVLINK_PARSE_STATE_GOT_STX, MAVLINK_PARSE_STATE_GOT_LENGTH,
    MAVLINK_PARSE_STATE_GOT_SEQ, MAVLINK_PARSE_STATE_GOT_SYSID,
    MAVLINK_PARSE_STATE_GOT_COMPID, MAVLINK_PARSE_STATE_GOT_MSGID,
    MAVLINK_PARSE_STATE_GOT_PAYLOAD, MAVLINK_PARSE_STATE_GOT_CRC1, rsCopy]
  split <;> simp

theorem ret_cases (c : Nat) (st : mavlink_status_t) (rx rm : mavlink_message_t)
    (rs : mavlink_status_t) :
    ((mavlink_parse_char c st rx rm rs).ret = 1 ∧
      st.parse_state = MAVLINK_PARSE_STATE_GOT_CRC1 ∧ c = rx.ck_b ∧
      (mavlink_parse_char c st rx rm rs).r_message = rx) ∨
    ((mavlink_parse_char c st rx rm rs).ret = 0 ∧
      (mavlink_parse_char c st rx rm rs).r_message = rm) := by
  rw [parse_char_init c st rx rm rs]
  have hstable := init_idem st
  have hle := init_range st
  have h9 := init_ps9 st
  rcases (show (mavlink_parse_state_init st).parse_state = 0 ∨
      (mavlink_parse_state_init st).parse_state = 1 ∨
      (mavlink_parse_state_init st).parse_state = 2 ∨
      (mavlink_parse_state_init st).parse_state = 3 ∨
      (mavlink_parse_state_init st).parse_state = 4 ∨
      (mavlink_parse_state_init st).parse_state = 5 ∨
      (mavlink_parse_state_init st).parse_state = 6 ∨
      (mavlink_parse_state_init st).parse_state = 7 ∨
      (mavlink_parse_state_init st).parse_state = 8 ∨
      (mavlink_parse_state_init st).parse_state = 9 from by omega)
    with h | h | h | h | h | h | h | h | h | h
  · by_cases hc : c = MAVLINK_STX
    · rw [step_stx c _ rx rm rs (Or.inl h) hstable hc]; right; simp
    · rw [step_wait c _ rx rm rs (Or.inl h) hstable hc]; right; simp
  · by_cases hc : c = MAVLINK_STX
    · rw [step_stx c _ rx rm rs (Or.inr h) hstable hc]; right; simp
    · rw [step_wait c _ rx rm rs (Or.inr h) hstable hc]; right; simp
  · rw [step_length c _ rx rm rs h]; right; simp
  · rw [step_seq c _ rx rm rs h]; right; simp
  · rw [step_sysid c _ rx rm rs h]; right; simp
  · rw [step_compid c _ rx rm rs h]; right; simp
  · rw [step_msgid c _ rx rm rs h]; right; simp
  · rw [step_payload_byte c _ rx rm rs h]; right; simp
  · by_cases hc : c = rx.ck_a
    · rw [step_ck1_ok c _ rx rm rs h hc]; right; simp
    · rw [step_ck1_bad c _ rx rm rs h hc]; right; simp
  · by_cases hc : c = rx.ck_b
    · rw [step_accept_raw c _ rx rm rs h hc]; left; exact ⟨rfl, h9.mp h, hc, rfl⟩
    · rw [step_ck2_bad c _ rx rm rs h hc]; right; simp

theorem overrun_const (c : Nat) (st : mavlink_status_t) (rx rm : mavlink_message_t)
    (rs : mavlink_status_t) :
    (mavlink_parse_char c st rx rm rs).status.buffer_overrun =
      (mavlink_parse_state_init st).buffer_overrun := by
  rw [parse_char_init c st rx rm rs]
  have hstable := init_idem st
  have hle := init_range st
  rcases (show (mavlink_parse_state_init st).parse_state = 0 ∨
      (mavlink_parse_state_init st).parse_state = 1 ∨
      (mavlink_parse_state_init st).parse_state = 2 ∨
      (mavlink_parse_state_init st).parse_state = 3 ∨
      (mavlink_parse_state_init st).parse_state = 4 ∨
      (mavlink_parse_state_init st).parse_state = 5 ∨
      (mavlink_parse_state_init st).parse_state = 6 ∨
      (mavlink_parse_state_init st).parse_state = 7 ∨
      (mavlink_parse_state_init st).parse_state = 8 ∨
      (mavlink_parse_state_init st).parse_state = 9 from by omega)
    with h | h | h | h | h | h | h | h | h | h
  · by_cases hc : c = MAVLINK_STX
    · rw [step_stx c _ rx rm rs (Or.inl h) hstable hc]
    · rw [step_wait c _ rx rm rs (Or.inl h) hstable hc]
  · by_cases hc : c = MAVLINK_STX
    · rw [step_stx c _ rx rm rs (Or.inr h) hstable hc]
    · rw [step_wait c _ rx rm rs (Or.inr h) hstable hc]
  · rw [step_length c _ rx rm rs h]
  · rw [step_seq c _ rx rm rs h]
  · rw [step_sysid c _ rx rm rs h]
  · rw [step_compid c _ rx rm rs h]
  · rw [step_msgid c _ rx rm rs h]
  · rw [step_payload_byte c _ rx rm rs h]
  · by_cases hc : c = rx.ck_a
    · rw [step_ck1_ok c _ rx rm rs h hc]
    · rw [step_ck1_bad c _ rx rm rs h hc]
  · by_cases hc : c = rx.ck_b
    · rw [step_accept_raw c _ rx rm rs h hc]
    · rw [step_ck2_bad c _ rx rm rs h hc]

theorem and255 (x : Nat) : x &&& 255 = x % 256 := by
  have h := Nat.and_pow_two_sub_one_eq_mod x 8
  norm_num at h
  omega

theorem shr_div (x k : Nat) : x >>> k = x / 2 ^ k := Nat.shiftRight_eq_div_pow x k

/-- The big-endian packing contract of the put_..._by_index family: bytes
written most significant first at buffer[offset..offset+W/8), all other
indices untouched, return value W/8. -/
def PutBigEndianOK (b16 b32 b64 bf b8 i : Nat) (buf : Nat → Nat) : Prop :=
  ((put_uint16_t_by_index b16 i buf).1 = 2 ∧
    (put_uint16_t_by_index b16 i buf).2 i = b16 / 2 ^ 8 ∧
    (put_uint16_t_by_index b16 i buf).2 (i + 1) = b16 % 2 ^ 8 ∧
    (∀ j, j < i ∨ i + 2 ≤ j → (put_uint16_t_by_index b16 i buf).2 j = buf j)) ∧
  ((put_uint32_t_by_index b32 i buf).1 = 4 ∧
    (put_uint32_t_by_index b32 i buf).2 i = b32 / 2 ^ 24 ∧
    (put_uint32_t_by_index b32 i buf).2 (i + 1) = b32 / 2 ^ 16 % 2 ^ 8 ∧
    (put_uint32_t_by_index b32 i buf).2 (i + 2) = b32 / 2 ^ 8 % 2 ^ 8 ∧
    (put_uint32_t_by_index b32 i buf).2 (i + 3) = b32 % 2 ^ 8 ∧
    (∀ j, j < i ∨ i + 4 ≤ j → (put_uint32_t_by_index b32 i buf).2 j = buf j)) ∧
  ((put_uint64_t_by_index b64 i buf).1 = 8 ∧
    (put_uint64_t_by_index b64 i buf).2 i = b64 / 2 ^ 56 ∧
    (put_uint64_t_by_index b64 i buf).2 (i + 1) = b64 / 2 ^ 48 % 2 ^ 8 ∧
    (put_uint64_t_by_index b64 i buf).2 (i + 2) = b64 / 2 ^ 40 % 2 ^ 8 ∧
    (put_uint64_t_by_index b64 i buf).2 (i + 3) = b64 / 2 ^ 32 % 2 ^ 8 ∧
    (put_uint64_t_by_index b64 i buf).2 (i + 4) = b64 / 2 ^ 24 % 2 ^ 8 ∧
    (put_uint64_t_by_index b64 i buf).2 (i + 5) = b64 / 2 ^ 16 % 2 ^ 8 ∧
    (put_uint64_t_by_index b64 i buf).2 (i + 6) = b64 / 2 ^ 8 % 2 ^ 8 ∧
    (put_uint64_t_by_index b64 i buf).2 (i + 7) = b64 % 2 ^ 8 ∧
    (∀ j, j < i ∨ i + 8 ≤ j → (put_uint64_t_by_index b64 i buf).2 j = buf j)) ∧
  ((put_float_by_index bf i buf).1 = 4 ∧
    (put_float_by_index bf i buf).2 i = bf / 2 ^ 24 ∧
    (put_float_by_index bf i buf).2 (i + 1) = bf / 2 ^ 16 % 2 ^ 8 ∧
    (put_float_by_index bf i buf).2 (i + 2) = bf / 2 ^ 8 % 2 ^ 8 ∧
    (put_float_by_index bf i buf).2 (i + 3) = bf % 2 ^ 8 ∧
    (∀ j, j < i ∨ i + 4 ≤ j → (put_float_by_index bf i buf).2 j = buf j)) ∧
  ((put_uint8_t_by_index b8 i buf).1 = 1 ∧
    (put_uint8_t_by_index b8 i buf).2 i = b8 ∧
    (∀ j, j ≠ i → (put_uint8_t_by_index b8 i buf).2 j = buf j))

/-- C6: put_uint16/32/64_t_by_index write their value big-endian (most
significant byte first) at buffer[offset..offset+W/8) and return W/8;
put_float_by_index writes the exact 32-bit pattern as four big-endian
bytes and returns 4; put_uint8_t_by_index writes the byte at
buffer[offset] and returns 1. -/
theorem C6_put_by_index_big_endian (b16 b32 b64 bf b8 i : Nat) (buf : Nat → Nat)
    (h16 : b16 < 2 ^ 16) (h32 : b32 < 2 ^ 32) (h64 : b64 < 2 ^ 64) (hf : bf < 2 ^ 32) :
    PutBigEndianOK b16 b32 b64 bf b8 i buf := by
  unfold PutBigEndianOK
  refine ⟨⟨rfl, ?_, ?_, ?_⟩, ⟨rfl, ?_, ?_, ?_, ?_, ?_⟩,
    ⟨rfl, ?_, ?_, ?_, ?_, ?_, ?_, ?_, ?_, ?_⟩, ⟨rfl, ?_, ?_, ?_, ?_, ?_⟩,
    ⟨rfl, ?_, ?_⟩⟩ <;>
    first
      | (intro j hj
         simp only [put_uint16_t_by_index, put_uint32_t_by_index, put_uint64_t_by_index,
           put_float_by_index, put_int32_t_by_index, put_uint8_t_by_index,
           Function.update, eq_rec_constant, dite_eq_ite]
         split_ifs <;> first | rfl | omega)
      | (simp [put_uint16_t_by_index, put_uint32_t_by_index, put_uint64_t_by_index,
           put_float_by_index, put_int32_t_by_index, put_uint8_t_by_index,
           Function.update, and255, shr_div] <;>
         omega)


theorem C6_witness :
    ((65535 : Nat) < 2 ^ 16 ∧ (305419896 : Nat) < 2 ^ 32 ∧
      (81985529216486895 : Nat) < 2 ^ 64 ∧ (1078530011 : Nat) < 2 ^ 32) ∧
    PutBigEndianOK 65535 305419896 81985529216486895 1078530011 7 3 (fun _ => 0) :=
  ⟨by norm_num,
   C6_put_by_index_big_endian 65535 305419896 81985529216486895 1078530011 7 3 (fun _ => 0)
     (by norm_num) (by norm_num) (by norm_num) (by norm_num)⟩

/-- C5: in GOT_PAYLOAD with a byte different from the stored low checksum
byte, or in GOT_CRC1 with a byte different from the stored high checksum
byte, the parser increments parse_error by exactly one, resets to IDLE, and
returns no decoded message in that call. -/
theorem C5_checksum_mismatch_rejects (c : Nat) (st : mavlink_status_t)
    (rx rm : mavlink_message_t) (rs : mavlink_status_t)
    (h : (st.parse_state = MAVLINK_PARSE_STATE_GOT_PAYLOAD ∧ c ≠ rx.ck_a) ∨
         (st.parse_state = MAVLINK_PARSE_STATE_GOT_CRC1 ∧ c ≠ rx.ck_b)) :
    (mavlink_parse_char c st rx rm rs).status.parse_error = st.parse_error + 1 ∧
    (mavlink_parse_char c st rx rm rs).status.parse_state = MAVLINK_PARSE_STATE_IDLE ∧
    (mavlink_parse_char c st rx rm rs).ret = 0 ∧
    (mavlink_parse_char c st rx rm rs).r_message = rm := by
  rcases h with ⟨h, hc⟩ | ⟨h, hc⟩
  · rw [step_ck1_bad c st rx rm rs h hc]; simp
  · rw [step_ck2_bad c st rx rm rs h hc]; simp

theorem C5_witness :
    (({ freshStatus with parse_state := MAVLINK_PARSE_STATE_GOT_PAYLOAD
        } : mavlink_status_t).parse_state = MAVLINK_PARSE_STATE_GOT_PAYLOAD ∧
      (1 : Nat) ≠ freshMessage.ck_a) ∧
    ((mavlink_parse_char 1 { freshStatus with parse_state := MAVLINK_PARSE_STATE_GOT_PAYLOAD }
        freshMessage freshMessage freshStatus).status.parse_error =
      ({ freshStatus with parse_state := MAVLINK_PARSE_STATE_GOT_PAYLOAD
        } : mavlink_status_t).parse_error + 1 ∧
     (mavlink_parse_char 1 { freshStatus with parse_state := MAVLINK_PARSE_STATE_GOT_PAYLOAD }
        freshMessage freshMessage freshStatus).status.parse_state = MAVLINK_PARSE_STATE_IDLE ∧
     (mavlink_parse_char 1 { freshStatus with parse_state := MAVLINK_PARSE_STATE_GOT_PAYLOAD }
        freshMessage freshMessage freshStatus).ret = 0 ∧
     (mavlink_parse_char 1 { freshStatus with parse_state := MAVLINK_PARSE_STATE_GOT_PAYLOAD }
        freshMessage freshMessage freshStatus).r_message = freshMessage) :=
  ⟨⟨rfl, by decide⟩,
   C5_checksum_mismatch_rejects 1 _ freshMessage freshMessage freshStatus
     (Or.inl ⟨rfl, by decide⟩)⟩

/-- C8 counterexample: a status whose stored parse state is UNINIT — a
value inside the valid enumerated range — but with a nonzero error
counter is reset by the initializer, so the initializer does not leave
every in-range status unchanged. -/
theorem C8_cex :
    ({ freshStatus with parse_error := 1 } : mavlink_status_t).parse_state ≥
        MAVLINK_PARSE_STATE_UNINIT ∧
    ({ freshStatus with parse_error := 1 } : mavlink_status_t).parse_state ≤
        MAVLINK_PARSE_STATE_GOT_CRC1 ∧
    ({ freshStatus with parse_error := 1 } : mavlink_status_t).parse_error = 1 ∧
    (mavlink_parse_state_init { freshStatus with parse_error := 1 }).parse_error = 0 := by
  decide

/-- C8 amended: the initializer leaves a status unchanged exactly when its
stored parse state is in IDLE..GOT_CRC1; when the state is UNINIT (or any
value beyond GOT_CRC1) it resets everything except current_seq. -/
theorem C8_init_idempotent_on_active (st : mavlink_status_t) :
    (MAVLINK_PARSE_STATE_IDLE ≤ st.parse_state ∧
        st.parse_state ≤ MAVLINK_PARSE_STATE_GOT_CRC1 →
      mavlink_parse_state_init st = st) ∧
    (st.parse_state ≤ MAVLINK_PARSE_STATE_UNINIT ∨
        MAVLINK_PARSE_STATE_GOT_CRC1 < st.parse_state →
      mavlink_parse_state_init st =
        { st with
            ck_a := 0, ck_b := 0, msg_received := 0, buffer_overrun := 0,
            parse_error := 0, parse_state := MAVLINK_PARSE_STATE_UNINIT,
            packet_idx := 0, packet_rx_drop_count := 0,
            packet_rx_success_count := 0 }) := by
  constructor
  · intro ⟨h1, h2⟩
    exact init_noop st h1 h2
  · intro h
    simp only [mavlink_parse_state_init]
    rw [if_pos h]

theorem C8_witness :
    (MAVLINK_PARSE_STATE_IDLE ≤
        ({ freshStatus with parse_state := 5, parse_error := 7 } : mavlink_status_t).parse_state ∧
      ({ freshStatus with parse_state := 5, parse_error := 7 } : mavlink_status_t).parse_state ≤
        MAVLINK_PARSE_STATE_GOT_CRC1) ∧
    mavlink_parse_state_init { freshStatus with parse_state := 5, parse_error := 7 } =
      { freshStatus with parse_state := 5, parse_error := 7 } :=
  ⟨by decide,
   (C8_init_idempotent_on_active { freshStatus with parse_state := 5, parse_error := 7 }).1
     (by decide)⟩

/-- C10: mavlink_parse_char returns 0 or 1, and whenever it returns 0 the
caller-supplied r_message buffer is left completely unchanged; it is
written only by an accepting call. -/
theorem C10_r_message_only_on_accept (c : Nat) (st : mavlink_status_t)
    (rx rm : mavlink_message_t) (rs : mavlink_status_t) :
    ((mavlink_parse_char c st rx rm rs).ret = 0 ∨
      (mavlink_parse_char c st rx rm rs).ret = 1) ∧
    ((mavlink_parse_char c st rx rm rs).ret = 0 →
      (mavlink_parse_char c st rx rm rs).r_message = rm) := by
  rcases ret_cases c st rx rm rs with ⟨h1, _, _, _⟩ | ⟨h0, hrm⟩
  · exact ⟨Or.inr h1, fun h => by omega⟩
  · exact ⟨Or.inl h0, fun _ => hrm⟩

theorem C10_witness :
    ((mavlink_parse_char 0 freshStatus freshMessage freshMessage freshStatus).ret = 0 ∨
      (mavlink_parse_char 0 freshStatus freshMessage freshMessage freshStatus).ret = 1) ∧
    ((mavlink_parse_char 0 freshStatus freshMessage freshMessage freshStatus).ret = 0 →
      (mavlink_parse_char 0 freshStatus freshMessage freshMessage freshStatus).r_message =
        freshMessage) :=
  C10_r_message_only_on_accept 0 freshStatus freshMessage freshMessage freshStatus

/-- C4 counterexample: no channel status and input byte make
mavlink_parse_char increment the buffer_overrun counter — the overrun
branch is unreachable, so in particular no reachable state triggers it. -/
theorem C4_cex :
    ¬ ∃ (c : Nat) (st : mavlink_status_t) (rx rm : mavlink_message_t)
        (rs : mavlink_status_t),
      (mavlink_parse_char c st rx rm rs).status.buffer_overrun =
        st.buffer_overrun + 1 := by
  rintro ⟨c, st, rx, rm, rs, h⟩
  rw [overrun_const] at h
  by_cases hc : st.parse_state = 0 ∨ 9 < st.parse_state <;>
    simp [mavlink_parse_state_init, hc, MAVLINK_PARSE_STATE_UNINIT,
      MAVLINK_PARSE_STATE_GOT_CRC1] at h

/-- C4 amended: the buffer-overrun branch in GOT_STX is dead code, because
mavlink_parse_char clears msg_received at the start of every call before
dispatching; consequently buffer_overrun is never incremented — after any
call it equals the value left by the lazy initialisation of the channel
status (which can only reset it to zero). -/
theorem C4_overrun_branch_dead (c : Nat) (st : mavlink_status_t)
    (rx rm : mavlink_message_t) (rs : mavlink_status_t) :
    (mavlink_parse_char c st rx rm rs).status.buffer_overrun =
      (mavlink_parse_state_init st).buffer_overrun ∧
    (mavlink_parse_char c st rx rm rs).status.buffer_overrun ≤ st.buffer_overrun := by
  refine ⟨overrun_const c st rx rm rs, ?_⟩
  rw [overrun_const]
  by_cases hc : st.parse_state = 0 ∨ 9 < st.parse_state <;>
    simp [mavlink_parse_state_init, hc, MAVLINK_PARSE_STATE_UNINIT,
      MAVLINK_PARSE_STATE_GOT_CRC1]

/-- The end-to-end round trip of claim C1: finalize a draft, serialize it,
feed every byte into a fresh channel parser. -/
def roundTripRun (draft : mavlink_message_t) (sys comp length seqC : Nat) : FeedOut :=
  feedBytes (message_to_send_buffer (finalize_message draft sys comp length seqC).1)
    freshStatus freshMessage freshMessage freshStatus

/-- C1: for every draft with payload length at most 255 and arbitrary
payload bytes, finalize + serialize + byte-at-a-time parse on a fresh
channel yields exactly one decoded message whose length, sender ids,
message kind id and payload bytes below the length equal the original. -/
theorem C1_round_trip (draft : mavlink_message_t) (sys comp length seqC : Nat)
    (hlen : length ≤ 255) :
    (roundTripRun draft sys comp length seqC).count = 1 ∧
    (roundTripRun draft sys comp length seqC).r_message.len = length ∧
    (roundTripRun draft sys comp length seqC).r_message.sysid = sys ∧
    (roundTripRun draft sys comp length seqC).r_message.compid = comp ∧
    (roundTripRun draft sys comp length seqC).r_message.msgid = draft.msgid ∧
    ∀ i, i < length →
      (roundTripRun draft sys comp length seqC).r_message.payload i = draft.payload i := by
  have hmod : length % 256 = length := Nat.mod_eq_of_lt (by omega)
  unfold roundTripRun
  rw [to_send_buffer_finalize draft sys comp length seqC, hmod]
  rw [← List.append_nil (goodFrame length (seqC % 256) sys comp draft.msgid draft.payload)]
  rw [goodFrame_feed length (seqC % 256) sys comp draft.msgid draft.payload []
    freshStatus freshMessage freshMessage freshStatus (Or.inl rfl) (by decide) hlen
    (Nat.mod_lt seqC (by norm_num)) (by decide)]
  refine ⟨rfl, rfl, rfl, rfl, rfl, fun i hi => ?_⟩
  exact writeRange_range_get length i draft.payload freshMessage.payload hi

def C1_example_draft : mavlink_message_t :=
  { freshMessage with
      msgid := 0,
      payload := fun i =>
        if i = 0 then 1 else if i = 1 then 2 else if i = 2 then 3
        else if i = 3 then 4 else 0 }

set_option maxRecDepth 100000 in
theorem C1_witness :
    (4 : Nat) ≤ 255 ∧
    ((roundTripRun C1_example_draft 1 1 4 0).count = 1 ∧
     (roundTripRun C1_example_draft 1 1 4 0).r_message.len = 4 ∧
     (roundTripRun C1_example_draft 1 1 4 0).r_message.sysid = 1 ∧
     (roundTripRun C1_example_draft 1 1 4 0).r_message.compid = 1 ∧
     (roundTripRun C1_example_draft 1 1 4 0).r_message.msgid = C1_example_draft.msgid ∧
     ∀ i, i < 4 →
       (roundTripRun C1_example_draft 1 1 4 0).r_message.payload i =
         C1_example_draft.payload i) :=
  ⟨by decide, C1_round_trip C1_example_draft 1 1 4 0 (by decide)⟩

set_option maxRecDepth 1000000 in
/-- C3 counterexample: on a fresh channel, three well-formed frames with
sequences 5, 6 and 9 are all accepted, after which packet_rx_drop_count is
4, not the 2 the claim states. -/
theorem C3_cex :
    (feedBytes (goodFrame 0 5 0 0 0 (fun _ => 0) ++
        (goodFrame 0 6 0 0 0 (fun _ => 0) ++ goodFrame 0 9 0 0 0 (fun _ => 0)))
      freshStatus freshMessage freshMessage freshStatus).count = 3 ∧
    (feedBytes (goodFrame 0 5 0 0 0 (fun _ => 0) ++
        (goodFrame 0 6 0 0 0 (fun _ => 0) ++ goodFrame 0 9 0 0 0 (fun _ => 0)))
      freshStatus freshMessage freshMessage freshStatus).status.packet_rx_drop_count = 4 ∧
    ¬ (feedBytes (goodFrame 0 5 0 0 0 (fun _ => 0) ++
        (goodFrame 0 6 0 0 0 (fun _ => 0) ++ goodFrame 0 9 0 0 0 (fun _ => 0)))
      freshStatus freshMessage freshMessage freshStatus).status.packet_rx_drop_count = 2 := by
  decide

/-- C3 amended: on every accepting call, the drop counter increases by the
wrap-aware distance (new_seq + 256 - last_seq) mod 256 -- one more than the
gap size whenever sequences advance, so consecutive in-order messages also
add one each -- except that the first-ever accepted message resets the drop
counter to 0 regardless of its sequence; current_seq becomes the accepted
sequence and the success counter increments. -/
theorem C3_drop_accounting (c : Nat) (st : mavlink_status_t)
    (rx rm : mavlink_message_t) (rs : mavlink_status_t)
    (hcur : st.current_seq < 256) (hseq : rx.seq < 256)
    (hacc : (mavlink_parse_char c st rx rm rs).ret = 1) :
    (mavlink_parse_char c st rx rm rs).status.packet_rx_drop_count =
      (if st.packet_rx_success_count = 0 then 0
       else st.packet_rx_drop_count + (rx.seq + 256 - st.current_seq) % 256) ∧
    (mavlink_parse_char c st rx rm rs).status.current_seq = rx.seq ∧
    (mavlink_parse_char c st rx rm rs).status.packet_rx_success_count =
      st.packet_rx_success_count + 1 := by
  rcases ret_cases c st rx rm rs with ⟨_, h9, hc, _⟩ | ⟨h0, _⟩
  · rw [step_ck2_ok c st rx rm rs h9 hc hcur hseq]
    simp [acceptStatus]
  · omega

theorem C3_witness :
    (({ freshStatus with
          parse_state := MAVLINK_PARSE_STATE_GOT_CRC1, current_seq := 5,
          packet_rx_success_count := 1 } : mavlink_status_t).current_seq < 256 ∧
     ({ freshMessage with seq := 9, ck_b := 7 } : mavlink_message_t).seq < 256 ∧
     (mavlink_parse_char 7
        { freshStatus with
            parse_state := MAVLINK_PARSE_STATE_GOT_CRC1, current_seq := 5,
            packet_rx_success_count := 1 }
        { freshMessage with seq := 9, ck_b := 7 } freshMessage freshStatus).ret = 1) ∧
    ((mavlink_parse_char 7
        { freshStatus with
            parse_state := MAVLINK_PARSE_STATE_GOT_CRC1, current_seq := 5,
            packet_rx_success_count := 1 }
        { freshMessage with seq := 9, ck_b := 7 } freshMessage freshStatus).status.packet_rx_drop_count =
      (if ({ freshStatus with
              parse_state := MAVLINK_PARSE_STATE_GOT_CRC1, current_seq := 5,
              packet_rx_success_count := 1 } : mavlink_status_t).packet_rx_success_count = 0
       then 0
       else ({ freshStatus with
                parse_state := MAVLINK_PARSE_STATE_GOT_CRC1, current_seq := 5,
                packet_rx_success_count := 1 } : mavlink_status_t).packet_rx_drop_count +
         (({ freshMessage with seq := 9, ck_b := 7 } : mavlink_message_t).seq + 256 -
           ({ freshStatus with
               parse_state := MAVLINK_PARSE_STATE_GOT_CRC1, current_seq := 5,
               packet_rx_success_count := 1 } : mavlink_status_t).current_seq) % 256) ∧
     (mavlink_parse_char 7
        { freshStatus with
            parse_state := MAVLINK_PARSE_STATE_GOT_CRC1, current_seq := 5,
            packet_rx_success_count := 1 }
        { freshMessage with seq := 9, ck_b := 7 } freshMessage freshStatus).status.current_seq =
       ({ freshMessage with seq := 9, ck_b := 7 } : mavlink_message_t).seq ∧
     (mavlink_parse_char 7
        { freshStatus with
            parse_state := MAVLINK_PARSE_STATE_GOT_CRC1, current_seq := 5,
            packet_rx_success_count := 1 }
        { freshMessage with seq := 9, ck_b := 7 } freshMessage freshStatus).status.packet_rx_success_count =
       ({ freshStatus with
           parse_state := MAVLINK_PARSE_STATE_GOT_CRC1, current_seq := 5,
           packet_rx_success_count := 1 } : mavlink_status_t).packet_rx_success_count + 1) :=
  ⟨⟨by decide, by decide, by decide⟩,
   C3_drop_accounting 7 _ _ freshMessage freshStatus (by decide) (by decide) (by decide)⟩

/-- The parser invariant survives the lazy channel initialisation. -/
theorem parserInv_init (st : mavlink_status_t) (rx : mavlink_message_t)
    (h : ParserInv st rx) : ParserInv (mavlink_parse_state_init st) rx := by
  obtain ⟨h1, h2, h3, h4⟩ := h
  simp only [MAVLINK_PARSE_STATE_GOT_MSGID, MAVLINK_PARSE_STATE_GOT_LENGTH,
    MAVLINK_PARSE_STATE_GOT_COMPID] at h3 h4
  by_cases hc : st.parse_state ≤ MAVLINK_PARSE_STATE_UNINIT ∨
      MAVLINK_PARSE_STATE_GOT_CRC1 < st.parse_state
  · unfold mavlink_parse_state_init
    rw [if_pos hc]
    simp [ParserInv, MAVLINK_PARSE_STATE_GOT_MSGID, MAVLINK_PARSE_STATE_GOT_LENGTH,
      MAVLINK_PARSE_STATE_GOT_COMPID, MAVLINK_PARSE_STATE_UNINIT] <;> omega
  · unfold mavlink_parse_state_init
    rw [if_neg hc]
    refine ⟨h1, h2, ?_, ?_⟩ <;>
      simp [MAVLINK_PARSE_STATE_GOT_MSGID, MAVLINK_PARSE_STATE_GOT_LENGTH,
        MAVLINK_PARSE_STATE_GOT_COMPID] <;> omega

/-- `step_stx` with the seeded checksum bytes written out as the literal
low/high bytes of the seed 0xFFFF. -/
theorem step_stx_flat (c : Nat) (st : mavlink_status_t) (rx rm : mavlink_message_t)
    (rs : mavlink_status_t)
    (h : st.parse_state = MAVLINK_PARSE_STATE_UNINIT ∨
         st.parse_state = MAVLINK_PARSE_STATE_IDLE)
    (hstable : mavlink_parse_state_init st = st) (hc : c = MAVLINK_STX) :
    mavlink_parse_char c st rx rm rs =
      ⟨0, { st with msg_received := 0, parse_state := MAVLINK_PARSE_STATE_GOT_STX },
       { rx with ck_a := 255, ck_b := 255 }, rm, rsCopy rs st⟩ := by
  rw [step_stx c st rx rm rs h hstable hc, mavlink_start_checksum]
  rfl

/-- C9: every call preserves the cursor invariant (packet_idx at most the
in-progress length field, itself at most 255), and a payload byte is
written only at an index strictly below the length, hence never beyond
index 254. -/
theorem C9_payload_cursor_safe (c : Nat) (st : mavlink_status_t)
    (rx rm : mavlink_message_t) (rs : mavlink_status_t)
    (hc : c < 256) (hinv : ParserInv st rx) :
    ParserInv (mavlink_parse_char c st rx rm rs).status
      (mavlink_parse_char c st rx rm rs).rxmsg ∧
    ∀ i, (mavlink_parse_char c st rx rm rs).rxmsg.payload i ≠ rx.payload i →
      i < rx.len ∧ i ≤ 254 := by
  rw [parse_char_init c st rx rm rs]
  have hstable := init_idem st
  have hle := init_range st
  obtain ⟨hL, hIdx, hMsgid, hHdr⟩ := parserInv_init st rx hinv
  simp only [MAVLINK_PARSE_STATE_GOT_MSGID, MAVLINK_PARSE_STATE_GOT_LENGTH,
    MAVLINK_PARSE_STATE_GOT_COMPID] at hMsgid hHdr
  rcases (show (mavlink_parse_state_init st).parse_state = 0 ∨
      (mavlink_parse_state_init st).parse_state = 1 ∨
      (mavlink_parse_state_init st).parse_state = 2 ∨
      (mavlink_parse_state_init st).parse_state = 3 ∨
      (mavlink_parse_state_init st).parse_state = 4 ∨
      (mavlink_parse_state_init st).parse_state = 5 ∨
      (mavlink_parse_state_init st).parse_state = 6 ∨
      (mavlink_parse_state_init st).parse_state = 7 ∨
      (mavlink_parse_state_init st).parse_state = 8 ∨
      (mavlink_parse_state_init st).parse_state = 9 from by omega)
    with h | h | h | h | h | h | h | h | h | h
  · by_cases hstx : c = MAVLINK_STX
    · rw [step_stx_flat c _ rx rm rs (Or.inl h) hstable hstx]
      exact ⟨⟨hL, hIdx,
        fun hh => absurd hh (by decide :
          ¬ (MAVLINK_PARSE_STATE_GOT_STX = MAVLINK_PARSE_STATE_GOT_MSGID)),
        fun hh => absurd hh (by decide :
          ¬ (MAVLINK_PARSE_STATE_GOT_LENGTH ≤ MAVLINK_PARSE_STATE_GOT_STX ∧
             MAVLINK_PARSE_STATE_GOT_STX ≤ MAVLINK_PARSE_STATE_GOT_COMPID))⟩,
        fun i hi => absurd rfl hi⟩
    · rw [step_wait c _ rx rm rs (Or.inl h) hstable hstx]
      exact ⟨⟨hL, hIdx, hMsgid, hHdr⟩, fun i hi => absurd rfl hi⟩
  · by_cases hstx : c = MAVLINK_STX
    · rw [step_stx_flat c _ rx rm rs (Or.inr h) hstable hstx]
      exact ⟨⟨hL, hIdx,
        fun hh => absurd hh (by decide :
          ¬ (MAVLINK_PARSE_STATE_GOT_STX = MAVLINK_PARSE_STATE_GOT_MSGID)),
        fun hh => absurd hh (by decide :
          ¬ (MAVLINK_PARSE_STATE_GOT_LENGTH ≤ MAVLINK_PARSE_STATE_GOT_STX ∧
             MAVLINK_PARSE_STATE_GOT_STX ≤ MAVLINK_PARSE_STATE_GOT_COMPID))⟩,
        fun i hi => absurd rfl hi⟩
    · rw [step_wait c _ rx rm rs (Or.inr h) hstable hstx]
      exact ⟨⟨hL, hIdx, hMsgid, hHdr⟩, fun i hi => absurd rfl hi⟩
  · rw [step_length c _ rx rm rs h]
    refine ⟨?_, fun i hi => absurd rfl hi⟩
    simp [ParserInv, MAVLINK_PARSE_STATE_GOT_MSGID,
      MAVLINK_PARSE_STATE_GOT_LENGTH, MAVLINK_PARSE_STATE_GOT_COMPID] <;> omega
  · rw [step_seq c _ rx rm rs h]
    refine ⟨?_, fun i hi => absurd rfl hi⟩
    simp [ParserInv, MAVLINK_PARSE_STATE_GOT_SEQ, MAVLINK_PARSE_STATE_GOT_MSGID,
      MAVLINK_PARSE_STATE_GOT_LENGTH, MAVLINK_PARSE_STATE_GOT_COMPID] <;> omega
  · rw [step_sysid c _ rx rm rs h]
    refine ⟨?_, fun i hi => absurd rfl hi⟩
    simp [ParserInv, MAVLINK_PARSE_STATE_GOT_SYSID, MAVLINK_PARSE_STATE_GOT_MSGID,
      MAVLINK_PARSE_STATE_GOT_LENGTH, MAVLINK_PARSE_STATE_GOT_COMPID] <;> omega
  · rw [step_compid c _ rx rm rs h]
    refine ⟨?_, fun i hi => absurd rfl hi⟩
    simp [ParserInv, MAVLINK_PARSE_STATE_GOT_MSGID,
      MAVLINK_PARSE_STATE_GOT_LENGTH, MAVLINK_PARSE_STATE_GOT_COMPID] <;> omega
  · rw [step_msgid c _ rx rm rs h]
    refine ⟨?_, fun i hi => absurd rfl hi⟩
    by_cases hL0 : rx.len = 0 <;>
      simp [ParserInv, hL0, MAVLINK_PARSE_STATE_GOT_MSGID,
        MAVLINK_PARSE_STATE_GOT_LENGTH, MAVLINK_PARSE_STATE_GOT_COMPID,
        MAVLINK_PARSE_STATE_GOT_PAYLOAD] <;> omega
  · rw [step_payload_byte c _ rx rm rs h]
    have hlt : (mavlink_parse_state_init st).packet_idx < rx.len := hMsgid h
    rw [show ((mavlink_parse_state_init st).packet_idx + 1) % 256 =
        (mavlink_parse_state_init st).packet_idx + 1 from by omega]
    constructor
    · by_cases hfin : (mavlink_parse_state_init st).packet_idx + 1 = rx.len <;>
        simp [ParserInv, hfin, MAVLINK_PARSE_STATE_GOT_MSGID,
          MAVLINK_PARSE_STATE_GOT_LENGTH, MAVLINK_PARSE_STATE_GOT_COMPID,
          MAVLINK_PARSE_STATE_GOT_PAYLOAD] <;> omega
    · intro i hi
      simp only [update_ck_payload] at hi
      by_cases hii : i = (mavlink_parse_state_init st).packet_idx
      · subst hii
        omega
      · rw [Function.update_noteq hii] at hi
        exact absurd rfl hi
  · by_cases hck : c = rx.ck_a
    · rw [step_ck1_ok c _ rx rm rs h hck]
      refine ⟨?_, fun i hi => absurd rfl hi⟩
      simp [ParserInv, MAVLINK_PARSE_STATE_GOT_MSGID, MAVLINK_PARSE_STATE_GOT_LENGTH,
        MAVLINK_PARSE_STATE_GOT_COMPID, MAVLINK_PARSE_STATE_GOT_CRC1] <;> omega
    · rw [step_ck1_bad c _ rx rm rs h hck]
      refine ⟨?_, fun i hi => absurd rfl hi⟩
      simp [ParserInv, MAVLINK_PARSE_STATE_GOT_MSGID, MAVLINK_PARSE_STATE_GOT_LENGTH,
        MAVLINK_PARSE_STATE_GOT_COMPID, MAVLINK_PARSE_STATE_IDLE] <;> omega
  · by_cases hck : c = rx.ck_b
    · rw [step_accept_raw c _ rx rm rs h hck]
      refine ⟨?_, fun i hi => absurd rfl hi⟩
      simp [ParserInv, MAVLINK_PARSE_STATE_GOT_MSGID, MAVLINK_PARSE_STATE_GOT_LENGTH,
        MAVLINK_PARSE_STATE_GOT_COMPID, MAVLINK_PARSE_STATE_IDLE] <;> omega
    · rw [step_ck2_bad c _ rx rm rs h hck]
      refine ⟨?_, fun i hi => absurd rfl hi⟩
      simp [ParserInv, MAVLINK_PARSE_STATE_GOT_MSGID, MAVLINK_PARSE_STATE_GOT_LENGTH,
        MAVLINK_PARSE_STATE_GOT_COMPID, MAVLINK_PARSE_STATE_IDLE] <;> omega

theorem C9_witness :
    ((5 : Nat) < 256 ∧ ParserInv freshStatus freshMessage) ∧
    (ParserInv (mavlink_parse_char 5 freshStatus freshMessage freshMessage freshStatus).status
        (mavlink_parse_char 5 freshStatus freshMessage freshMessage freshStatus).rxmsg ∧
      ∀ i, (mavlink_parse_char 5 freshStatus freshMessage freshMessage
              freshStatus).rxmsg.payload i ≠ freshMessage.payload i →
        i < freshMessage.len ∧ i ≤ 254) :=
  ⟨⟨by decide, by decide⟩,
   C9_payload_cursor_safe 5 freshStatus freshMessage freshMessage freshStatus
     (by decide) (by decide)⟩

/-- Parse-state trace of one byte: delimiter from a waiting state. -/
theorem states_one_stx (c : Nat) (cs : List Nat) (st : mavlink_status_t)
    (rx rm : mavlink_message_t) (rs : mavlink_status_t)
    (hps : st.parse_state = MAVLINK_PARSE_STATE_UNINIT ∨
           st.parse_state = MAVLINK_PARSE_STATE_IDLE)
    (hstable : mavlink_parse_state_init st = st) (hc : c = MAVLINK_STX) :
    feedStates (c :: cs) st rx rm rs =
      MAVLINK_PARSE_STATE_GOT_STX ::
        feedStates cs { st with msg_received := 0, parse_state := MAVLINK_PARSE_STATE_GOT_STX }
          (mavlink_start_checksum rx) rm (rsCopy rs st) := by
  rw [feedStates_cons, step_stx c st rx rm rs hps hstable hc]

theorem states_hop_length (c v l s0 sy0 cp0 mi0 : Nat) (pl : Nat → Nat) (cs : List Nat)
    (st : mavlink_status_t) (rm : mavlink_message_t) (rs : mavlink_status_t) :
    feedStates (c :: cs)
      { st with msg_received := 0, parse_state := MAVLINK_PARSE_STATE_GOT_STX }
      ⟨l, s0, sy0, cp0, mi0, pl, v % 256, v / 256⟩ rm rs =
      MAVLINK_PARSE_STATE_GOT_LENGTH ::
        feedStates cs
          { st with
              msg_received := 0, packet_idx := 0,
              parse_state := MAVLINK_PARSE_STATE_GOT_LENGTH }
          ⟨c, s0, sy0, cp0, mi0, pl, crcAccumulateFn v c % 256, crcAccumulateFn v c / 256⟩
          rm (rsCopy rs st) := by
  rw [feedStates_cons, step_length c _ _ rm rs rfl]
  simp [mavlink_update_checksum, rsCopy, Nat.mod_add_div]

theorem states_hop_seq (c v l s0 sy0 cp0 mi0 : Nat) (pl : Nat → Nat) (cs : List Nat)
    (st : mavlink_status_t) (rm : mavlink_message_t) (rs : mavlink_status_t) :
    feedStates (c :: cs)
      { st with
          msg_received := 0, packet_idx := 0,
          parse_state := MAVLINK_PARSE_STATE_GOT_LENGTH }
      ⟨l, s0, sy0, cp0, mi0, pl, v % 256, v / 256⟩ rm rs =
      MAVLINK_PARSE_STATE_GOT_SEQ ::
        feedStates cs
          { st with
              msg_received := 0, packet_idx := 0,
              parse_state := MAVLINK_PARSE_STATE_GOT_SEQ }
          ⟨l, c, sy0, cp0, mi0, pl, crcAccumulateFn v c % 256, crcAccumulateFn v c / 256⟩
          rm (rsCopy rs st) := by
  rw [feedStates_cons, step_seq c _ _ rm rs rfl]
  simp [mavlink_update_checksum, rsCopy, Nat.mod_add_div]

theorem states_hop_sysid (c v l s0 sy0 cp0 mi0 : Nat) (pl : Nat → Nat) (cs : List Nat)
    (st : mavlink_status_t) (rm : mavlink_message_t) (rs : mavlink_status_t) :
    feedStates (c :: cs)
      { st with
          msg_received := 0, packet_idx := 0,
          parse_state := MAVLINK_PARSE_STATE_GOT_SEQ }
      ⟨l, s0, sy0, cp0, mi0, pl, v % 256, v / 256⟩ rm rs =
      MAVLINK_PARSE_STATE_GOT_SYSID ::
        feedStates cs
          { st with
              msg_received := 0, packet_idx := 0,
              parse_state := MAVLINK_PARSE_STATE_GOT_SYSID }
          ⟨l, s0, c, cp0, mi0, pl, crcAccumulateFn v c % 256, crcAccumulateFn v c / 256⟩
          rm (rsCopy rs st) := by
  rw [feedStates_cons, step_sysid c _ _ rm rs rfl]
  simp [mavlink_update_checksum, rsCopy, Nat.mod_add_div]

theorem states_hop_compid (c v l s0 sy0 cp0 mi0 : Nat) (pl : Nat → Nat) (cs : List Nat)
    (st : mavlink_status_t) (rm : mavlink_message_t) (rs : mavlink_status_t) :
    feedStates (c :: cs)
      { st with
          msg_received := 0, packet_idx := 0,
          parse_state := MAVLINK_PARSE_STATE_GOT_SYSID }
      ⟨l, s0, sy0, cp0, mi0, pl, v % 256, v / 256⟩ rm rs =
      MAVLINK_PARSE_STATE_GOT_COMPID ::
        feedStates cs
          { st with
              msg_received := 0, packet_idx := 0,
              parse_state := MAVLINK_PARSE_STATE_GOT_COMPID }
          ⟨l, s0, sy0, c, mi0, pl, crcAccumulateFn v c % 256, crcAccumulateFn v c / 256⟩
          rm (rsCopy rs st) := by
  rw [feedStates_cons, step_compid c _ _ rm rs rfl]
  simp [mavlink_update_checksum, rsCopy, Nat.mod_add_div]

theorem states_hop_msgid_zero (c v s0 sy0 cp0 mi0 : Nat) (pl : Nat → Nat) (cs : List Nat)
    (st : mavlink_status_t) (rm : mavlink_message_t) (rs : mavlink_status_t) :
    feedStates (c :: cs)
      { st with
          msg_received := 0, packet_idx := 0,
          parse_state := MAVLINK_PARSE_STATE_GOT_COMPID }
      ⟨0, s0, sy0, cp0, mi0, pl, v % 256, v / 256⟩ rm rs =
      MAVLINK_PARSE_STATE_GOT_PAYLOAD ::
        feedStates cs
          { st with
              msg_received := 0, packet_idx := 0,
              parse_state := MAVLINK_PARSE_STATE_GOT_PAYLOAD }
          ⟨0, s0, sy0, cp0, c, pl, crcAccumulateFn v c % 256, crcAccumulateFn v c / 256⟩
          rm (rsCopy rs st) := by
  rw [feedStates_cons, step_msgid c _ _ rm rs rfl]
  simp [mavlink_update_checksum, rsCopy, Nat.mod_add_div]

theorem states_hop_ck1_ok (v pi l s0 sy0 cp0 mi0 : Nat) (pl : Nat → Nat) (cs : List Nat)
    (st : mavlink_status_t) (rm : mavlink_message_t) (rs : mavlink_status_t) :
    feedStates (v % 256 :: cs)
      { st with
          msg_received := 0, packet_idx := pi,
          parse_state := MAVLINK_PARSE_STATE_GOT_PAYLOAD }
      ⟨l, s0, sy0, cp0, mi0, pl, v % 256, v / 256⟩ rm rs =
      MAVLINK_PARSE_STATE_GOT_CRC1 ::
        feedStates cs
          { st with
              msg_received := 0, packet_idx := pi,
              parse_state := MAVLINK_PARSE_STATE_GOT_CRC1 }
          ⟨l, s0, sy0, cp0, mi0, pl, v % 256, v / 256⟩ rm (rsCopy rs st) := by
  rw [feedStates_cons, step_ck1_ok (v % 256) _ _ rm rs rfl rfl]
  simp [rsCopy]

theorem states_last_ck2_ok (v pi l s0 sy0 cp0 mi0 : Nat) (pl : Nat → Nat)
    (st : mavlink_status_t) (rm : mavlink_message_t) (rs : mavlink_status_t)
    (hcur : st.current_seq < 256) (hseq : s0 < 256) :
    feedStates [v / 256]
      { st with
          msg_received := 0, packet_idx := pi,
          parse_state := MAVLINK_PARSE_STATE_GOT_CRC1 }
      ⟨l, s0, sy0, cp0, mi0, pl, v % 256, v / 256⟩ rm rs =
      [MAVLINK_PARSE_STATE_IDLE] := by
  rw [feedStates_cons,
    step_ck2_ok (v / 256) _ _ rm rs rfl rfl (by simpa using hcur) (by simpa using hseq)]
  simp [acceptStatus, feedStates]

/-- C7: a frame whose length field is 0 is valid and acceptable: the parser
passes through GOT_STX, GOT_LENGTH, GOT_SEQ, GOT_SYSID, GOT_COMPID, then
directly to GOT_PAYLOAD (skipping the payload-accumulation state GOT_MSGID),
then GOT_CRC1, and the matching trailer yields exactly one decoded message
whose length is 0. -/
theorem C7_zero_length (s sy cp mi : Nat) (p : Nat → Nat)
    (st : mavlink_status_t) (rx rm : mavlink_message_t) (rs : mavlink_status_t)
    (hps : st.parse_state = MAVLINK_PARSE_STATE_UNINIT ∨
           st.parse_state = MAVLINK_PARSE_STATE_IDLE)
    (hstable : mavlink_parse_state_init st = st)
    (hs : s < 256) (hcur : st.current_seq < 256) :
    feedStates (goodFrame 0 s sy cp mi p) st rx rm rs =
      [MAVLINK_PARSE_STATE_GOT_STX, MAVLINK_PARSE_STATE_GOT_LENGTH,
       MAVLINK_PARSE_STATE_GOT_SEQ, MAVLINK_PARSE_STATE_GOT_SYSID,
       MAVLINK_PARSE_STATE_GOT_COMPID, MAVLINK_PARSE_STATE_GOT_PAYLOAD,
       MAVLINK_PARSE_STATE_GOT_CRC1, MAVLINK_PARSE_STATE_IDLE] ∧
    MAVLINK_PARSE_STATE_GOT_MSGID ∉ feedStates (goodFrame 0 s sy cp mi p) st rx rm rs ∧
    (feedBytes (goodFrame 0 s sy cp mi p) st rx rm rs).count = 1 ∧
    (feedBytes (goodFrame 0 s sy cp mi p) st rx rm rs).r_message.len = 0 := by
  have hshape : goodFrame 0 s sy cp mi p =
      [MAVLINK_STX, 0, s, sy, cp, mi,
       frameCk 0 s sy cp mi p % 256, frameCk 0 s sy cp mi p / 256] := by
    simp [goodFrame, frameWith]
  have hck : frameCk 0 s sy cp mi p =
      crcAccumulateFn (crcAccumulateFn (crcAccumulateFn (crcAccumulateFn
        (crcAccumulateFn crcInitValue 0) s) sy) cp) mi := by
    simp [frameCk, crc_calculate]
  have htrace : feedStates (goodFrame 0 s sy cp mi p) st rx rm rs =
      [MAVLINK_PARSE_STATE_GOT_STX, MAVLINK_PARSE_STATE_GOT_LENGTH,
       MAVLINK_PARSE_STATE_GOT_SEQ, MAVLINK_PARSE_STATE_GOT_SYSID,
       MAVLINK_PARSE_STATE_GOT_COMPID, MAVLINK_PARSE_STATE_GOT_PAYLOAD,
       MAVLINK_PARSE_STATE_GOT_CRC1, MAVLINK_PARSE_STATE_IDLE] := by
    rw [hshape]
    rw [states_one_stx _ _ _ _ _ _ hps hstable rfl]
    simp only [mavlink_start_checksum]
    rw [states_hop_length]
    rw [states_hop_seq]
    rw [states_hop_sysid]
    rw [states_hop_compid]
    rw [states_hop_msgid_zero]
    rw [hck]
    rw [states_hop_ck1_ok]
    rw [states_last_ck2_ok _ _ _ _ _ _ _ _ _ rm _ (by simpa using hcur) hs]
  have hfeed := goodFrame_feed 0 s sy cp mi p [] st rx rm rs hps hstable
    (by omega) hs hcur
  rw [List.append_nil] at hfeed
  refine ⟨htrace, by rw [htrace]; decide, ?_, ?_⟩
  · rw [hfeed]
    simp [feedBytes, bumpCount]
  · rw [hfeed]
    simp [feedBytes, bumpCount]

/-- C7 witness. -/
theorem C7_witness :
    (feedStates (goodFrame 0 0 0 0 0 (fun _ => 0))
        freshStatus freshMessage freshMessage freshStatus =
      [MAVLINK_PARSE_STATE_GOT_STX, MAVLINK_PARSE_STATE_GOT_LENGTH,
       MAVLINK_PARSE_STATE_GOT_SEQ, MAVLINK_PARSE_STATE_GOT_SYSID,
       MAVLINK_PARSE_STATE_GOT_COMPID, MAVLINK_PARSE_STATE_GOT_PAYLOAD,
       MAVLINK_PARSE_STATE_GOT_CRC1, MAVLINK_PARSE_STATE_IDLE] ∧
    MAVLINK_PARSE_STATE_GOT_MSGID ∉ feedStates (goodFrame 0 0 0 0 0 (fun _ => 0))
        freshStatus freshMessage freshMessage freshStatus ∧
    (feedBytes (goodFrame 0 0 0 0 0 (fun _ => 0))
        freshStatus freshMessage freshMessage freshStatus).count = 1 ∧
    (feedBytes (goodFrame 0 0 0 0 0 (fun _ => 0))
        freshStatus freshMessage freshMessage freshStatus).r_message.len = 0) :=
  C7_zero_length 0 0 0 0 (fun _ => 0) freshStatus freshMessage freshMessage freshStatus
    (Or.inl (by decide)) (by decide) (by decide) (by decide)

set_option maxRecDepth 1000000 in
/-- C2 counterexample: a corrupted zero-length frame whose first trailer
byte is wrong and whose second trailer byte happens to equal the start
delimiter, followed by a well-formed frame, decodes zero messages from a
fresh channel (the spurious delimiter makes the parser consume the good
frame's delimiter as a length byte), refuting the claim that any corrupted
frame followed by a well-formed one yields exactly one decoded message. -/
theorem C2_cex :
    (feedBytes (frameWith 0 0 0 0 0 (fun _ => 0)
          ((frameCk 0 0 0 0 0 (fun _ => 0) + 1) % 256) MAVLINK_STX ++
        goodFrame 0 0 0 0 0 (fun _ => 0))
      freshStatus freshMessage freshMessage freshStatus).count = 0 ∧
    ¬((frameCk 0 0 0 0 0 (fun _ => 0) + 1) % 256 =
        frameCk 0 0 0 0 0 (fun _ => 0) % 256 ∧
      MAVLINK_STX = frameCk 0 0 0 0 0 (fun _ => 0) / 256) ∧
    freshStatus.parse_state = MAVLINK_PARSE_STATE_UNINIT := by
  exact ⟨by decide, by decide, by decide⟩

/-- C2 amended: for every channel in the IDLE or UNINIT state, feeding a
corrupted frame whose trailer fails in a recoverable way (its first trailer
byte is the correct low checksum byte, or its second trailer byte is not
the start delimiter) immediately followed by a well-formed frame causes the
parser to emit exactly one decoded message, the well-formed one, without
any external reset of the channel state. -/
theorem C2_resync (l1 s1 sy1 cp1 mi1 t1 t2 l2 s2 sy2 cp2 mi2 : Nat)
    (p1 p2 : Nat → Nat) (st : mavlink_status_t) (rx rm : mavlink_message_t)
    (rs : mavlink_status_t)
    (hps : st.parse_state = MAVLINK_PARSE_STATE_UNINIT ∨
           st.parse_state = MAVLINK_PARSE_STATE_IDLE)
    (hstable : mavlink_parse_state_init st = st)
    (hl1 : l1 ≤ 255) (hl2 : l2 ≤ 255) (hs2 : s2 < 256)
    (hcur : st.current_seq < 256)
    (hbad : ¬(t1 = frameCk l1 s1 sy1 cp1 mi1 p1 % 256 ∧
              t2 = frameCk l1 s1 sy1 cp1 mi1 p1 / 256))
    (hside : t1 = frameCk l1 s1 sy1 cp1 mi1 p1 % 256 ∨ t2 ≠ MAVLINK_STX) :
    (feedBytes (frameWith l1 s1 sy1 cp1 mi1 p1 t1 t2 ++
        goodFrame l2 s2 sy2 cp2 mi2 p2) st rx rm rs).count = 1 ∧
    (feedBytes (frameWith l1 s1 sy1 cp1 mi1 p1 t1 t2 ++
        goodFrame l2 s2 sy2 cp2 mi2 p2) st rx rm rs).r_message.len = l2 ∧
    (feedBytes (frameWith l1 s1 sy1 cp1 mi1 p1 t1 t2 ++
        goodFrame l2 s2 sy2 cp2 mi2 p2) st rx rm rs).r_message.seq = s2 ∧
    (feedBytes (frameWith l1 s1 sy1 cp1 mi1 p1 t1 t2 ++
        goodFrame l2 s2 sy2 cp2 mi2 p2) st rx rm rs).r_message.sysid = sy2 ∧
    (feedBytes (frameWith l1 s1 sy1 cp1 mi1 p1 t1 t2 ++
        goodFrame l2 s2 sy2 cp2 mi2 p2) st rx rm rs).r_message.compid = cp2 ∧
    (feedBytes (frameWith l1 s1 sy1 cp1 mi1 p1 t1 t2 ++
        goodFrame l2 s2 sy2 cp2 mi2 p2) st rx rm rs).r_message.msgid = mi2 ∧
    ∀ i, i < l2 →
      (feedBytes (frameWith l1 s1 sy1 cp1 mi1 p1 t1 t2 ++
          goodFrame l2 s2 sy2 cp2 mi2 p2) st rx rm rs).r_message.payload i = p2 i := by
  rw [badFrame_feed l1 s1 sy1 cp1 mi1 t1 t2 p1 _ st rx rm rs hps hstable hl1 hbad hside]
  rw [← List.append_nil (goodFrame l2 s2 sy2 cp2 mi2 p2)]
  rw [goodFrame_feed l2 s2 sy2 cp2 mi2 p2 [] _ _ rm _ (Or.inr rfl)
    (init_noop _ (by simp [MAVLINK_PARSE_STATE_IDLE]) (by simp [MAVLINK_PARSE_STATE_IDLE]))
    hl2 hs2 (by simpa using hcur)]
  refine ⟨?_, ?_, ?_, ?_, ?_, ?_, ?_⟩
  · simp [feedBytes, bumpCount]
  · simp [feedBytes, bumpCount]
  · simp [feedBytes, bumpCount]
  · simp [feedBytes, bumpCount]
  · simp [feedBytes, bumpCount]
  · simp [feedBytes, bumpCount]
  · intro i hi
    simp [feedBytes, bumpCount, writeRange_range_get _ _ _ _ hi]

/-- C2 witness. -/
theorem C2_witness :
    (feedBytes (frameWith 0 0 0 0 0 (fun _ => 0)
        ((frameCk 0 0 0 0 0 (fun _ => 0) + 1) % 256) 0 ++
      goodFrame 0 0 0 0 0 (fun _ => 0))
      freshStatus freshMessage freshMessage freshStatus).count = 1 ∧
    (feedBytes (frameWith 0 0 0 0 0 (fun _ => 0)
        ((frameCk 0 0 0 0 0 (fun _ => 0) + 1) % 256) 0 ++
      goodFrame 0 0 0 0 0 (fun _ => 0))
      freshStatus freshMessage freshMessage freshStatus).r_message.len = 0 :=
  ⟨(C2_resync 0 0 0 0 0 ((frameCk 0 0 0 0 0 (fun _ => 0) + 1) % 256) 0
      0 0 0 0 0 (fun _ => 0) (fun _ => 0) freshStatus freshMessage freshMessage
      freshStatus (Or.inl (by decide)) (by decide) (by decide) (by decide)
      (by decide) (by decide) (by decide) (Or.inr (by decide))).1,
   (C2_resync 0 0 0 0 0 ((frameCk 0 0 0 0 0 (fun _ => 0) + 1) % 256) 0
      0 0 0 0 0 (fun _ => 0) (fun _ => 0) freshStatus freshMessage freshMessage
      freshStatus (Or.inl (by decide)) (by decide) (by decide) (by decide)
      (by decide) (by decide) (by decide) (Or.inr (by decide))).2.1⟩
